import Mathlib

/-!
Verification development for the CardStock multi-tenant inventory core.

Shallow embedding of the data model, row-level-security policy predicates,
audit triggers and privileged RPC procedures defined in the SQL migrations
(initial schema 20260209000001, security fixes 20260209000002, the
leave_organization fix 20260209000003 and the policy rewrites in
20260209000004/5).

Conventions of the embedding:
- uuid and timestamptz columns become Nat (fresh uuids are drawn from a
  DB.next_id counter, mirroring gen_random_uuid only in its freshness);
- DECIMAL prices become Int; TEXT stays String; nullable columns are Option;
- bookkeeping columns immaterial to the verified claims (created_at,
  updated_at, and descriptive card columns beyond card_name) are omitted;
- a plpgsql RAISE EXCEPTION aborts the surrounding transaction, so every
  procedure returns Except: on error no new database state is produced,
  which is exactly the rollback semantics of the source;
- AFTER ROW triggers are folded into the row-mutation primitives, so a
  primitive performs the table write and fires the attached audit triggers.
-/

namespace CardStock

/-- role_enum from the initial schema. -/
inductive Role
  | owner
  | admin
  | member
deriving DecidableEq, Repr

/-- inventory_status_enum from the initial schema. -/
inductive InvStatus
  | available
  | reserved
  | sold
deriving DecidableEq, Repr

/-- TG_OP values a row trigger can observe. -/
inductive TgOp
  | insertOp
  | updateOp
  | deleteOp
deriving DecidableEq, Repr

/-- Tables that carry an audit trigger in the schema. -/
inductive TableName
  | inventory
  | memberships
  | organizations
deriving DecidableEq, Repr

/-- Named constraints and unique indexes of the schema that the embedded
operations can trip over. -/
inductive CkName
  | nameValid
  | slugFormat
  | slugNotReserved
  | slugUnique
  | membershipUserOrg
  | invitesOrgEmailPending
  | inviteTokenUnique
deriving DecidableEq, Repr

/-- Errors raised by the embedded procedures: one constructor per RAISE
EXCEPTION site in the RPC functions, plus constraint and policy failures
surfaced by the store itself. -/
inductive PgError
  | invalidSlugFormat
  | constraintViolation (c : CkName)
  | uniqueViolation (c : CkName)
  | invalidInviteToken
  | inviteRevoked
  | inviteAlreadyUsed
  | inviteExpired
  | orgDeleted
  | emailMismatch
  | itemNotFound
  | itemNotAvailable (s : InvStatus)
  | accessDenied
  | notAMember
  | soleOwner
  | onlyOwnersCanDelete
  | withCheckViolation
deriving DecidableEq, Repr

/-- Error taxonomy of the specification layer. -/
inductive ErrorKind
  | validationError
  | permissionDenied
  | notFound
  | conflict
  | invariantViolation
deriving DecidableEq, Repr

/-- Modelled from the spec: the SQL only raises textual exceptions, so the
discriminated error taxonomy of spec section 7 is not present in src; this
maps each raise site to the taxonomy kind the spec assigns (ValidationError
for malformed input and check constraints, Conflict for already-transitioned
state and uniqueness races, NotFound for absent or invisible rows,
PermissionDenied for failed authorization, InvariantViolation for the
sole-owner guard). -/
def kindOf : PgError → ErrorKind
  | .invalidSlugFormat => .validationError
  | .constraintViolation _ => .validationError
  | .uniqueViolation _ => .conflict
  | .invalidInviteToken => .notFound
  | .inviteRevoked => .conflict
  | .inviteAlreadyUsed => .conflict
  | .inviteExpired => .conflict
  | .orgDeleted => .notFound
  | .emailMismatch => .permissionDenied
  | .itemNotFound => .notFound
  | .itemNotAvailable _ => .conflict
  | .accessDenied => .permissionDenied
  | .notAMember => .notFound
  | .soleOwner => .invariantViolation
  | .onlyOwnersCanDelete => .permissionDenied
  | .withCheckViolation => .permissionDenied

/-- Row of auth.users (the external identity provider): verified id and
email. -/
structure AuthUser where
  id : Nat
  email : String
deriving DecidableEq, Repr

/-- Row of organizations (id, name, slug, deleted_at). -/
structure Organization where
  id : Nat
  name : String
  slug : String
  deleted_at : Option Nat
deriving DecidableEq, Repr

/-- Row of memberships. -/
structure Membership where
  id : Nat
  user_id : Nat
  organization_id : Nat
  role : Role
  invited_by : Option Nat
  invited_at : Option Nat
  accepted_at : Option Nat
deriving DecidableEq, Repr

/-- Row of inventory (card identity columns beyond card_name omitted). -/
structure InventoryItem where
  id : Nat
  organization_id : Nat
  card_name : String
  status : InvStatus
  updated_by : Option Nat
  deleted_at : Option Nat
deriving DecidableEq, Repr

/-- Row of transactions. -/
structure Transaction where
  id : Nat
  organization_id : Nat
  inventory_id : Nat
  sold_price : Int
  sold_by : Option Nat
  buyer_email : Option String
  buyer_notes : Option String
deriving DecidableEq, Repr

/-- Row of invites. -/
structure Invite where
  id : Nat
  organization_id : Nat
  email : String
  role : Role
  token : String
  invited_by : Option Nat
  created_at : Nat
  expires_at : Nat
  accepted_at : Option Nat
  revoked_at : Option Nat
deriving DecidableEq, Repr

/-- Row of inventory_images. -/
structure InventoryImage where
  id : Nat
  inventory_id : Nat
  organization_id : Nat
  storage_path : String
  is_primary : Bool
  created_by : Option Nat
deriving DecidableEq, Repr

/-- Structured row image, standing in for to_jsonb of an audited row. -/
inductive RowData
  | inventoryRow (r : InventoryItem)
  | membershipRow (r : Membership)
  | organizationRow (r : Organization)
deriving DecidableEq, Repr

/-- Row of audit_log. -/
structure AuditEntry where
  organization_id : Nat
  table_name : TableName
  record_id : Nat
  action : TgOp
  old_data : Option RowData
  new_data : Option RowData
  changed_by : Option Nat
deriving DecidableEq, Repr

/-- The relational store: one list per table, plus a freshness counter
standing in for gen_random_uuid. -/
structure DB where
  users : List AuthUser
  organizations : List Organization
  memberships : List Membership
  inventory : List InventoryItem
  transactions : List Transaction
  invites : List Invite
  inventory_images : List InventoryImage
  audit_log : List AuditEntry
  next_id : Nat
deriving DecidableEq, Repr

/-! Slug and name constraints of the organizations table. -/

/-- A character allowed at the ends of a slug: [a-z0-9], by code point. -/
def isSlugChar (c : Char) : Bool :=
  ((97 ≤ c.toNat) && (c.toNat ≤ 122)) || ((48 ≤ c.toNat) && (c.toNat ≤ 57))

/-- A character allowed in the middle of a slug: [a-z0-9-]. -/
def isSlugMidChar (c : Char) : Bool :=
  isSlugChar c || c.toNat == 45

/-- CHECK slug_format: the regex from the schema, anchored: one [a-z0-9],
then at most thirty of [a-z0-9-], then one [a-z0-9]. -/
def slug_format_ok (s : String) : Bool :=
  match s.toList with
  | [] => false
  | c :: rest =>
    match rest.reverse with
    | [] => false
    | lastc :: midRev =>
      isSlugChar c && isSlugChar lastc && midRev.all isSlugMidChar &&
        midRev.length ≤ 30

/-- CHECK slug_not_reserved: the reserved slug list from the schema. -/
def reserved_slugs : List String :=
  [ "api", "admin", "www", "app", "auth", "login", "register" ]

/-- The space character, the only character the SQL trim removes by
default. -/
def isSpaceChar (c : Char) : Bool := c.toNat == 32

/-- Length of a string after trimming spaces from both ends. -/
def trimmedLen (s : String) : Nat :=
  ((s.toList.dropWhile isSpaceChar).reverse.dropWhile isSpaceChar).length

/-- CHECK name_valid: char_length of the trimmed name between 1 and 100. -/
def name_valid_ok (s : String) : Bool :=
  1 ≤ trimmedLen s && trimmedLen s ≤ 100

/-- Code point of a character after ASCII lowercasing, modelling LOWER. -/
def lowerCode (c : Char) : Nat :=
  if 65 ≤ c.toNat && c.toNat ≤ 90 then c.toNat + 32 else c.toNat

/-- Case-insensitive string equality: LOWER(a) = LOWER(b). -/
def lower_eq (a b : String) : Bool :=
  a.toList.map lowerCode == b.toList.map lowerCode

/-! Audit triggers (security-fixes migration, audit_trigger and
audit_trigger_organizations). -/

/-- Organization id column a generic audited row exposes; for an
organizations row the trigger variant below uses id instead. -/
def RowData.orgIdField : RowData → Nat
  | .inventoryRow r => r.organization_id
  | .membershipRow r => r.organization_id
  | .organizationRow r => r.id

/-- Primary key of an audited row. -/
def RowData.idField : RowData → Nat
  | .inventoryRow r => r.id
  | .membershipRow r => r.id
  | .organizationRow r => r.id

/-- COALESCE over two nullable ids; the triggers only evaluate it with at
least one side present. -/
def coalesce2 (a b : Option Nat) : Nat :=
  match a with
  | some x => x
  | none =>
    match b with
    | some y => y
    | none => 0

/-- audit_trigger: the generic audit for tables with an organization_id
column, writing one audit_log row with COALESCE(NEW, OLD) ids, the TG_OP,
the pre-image for UPDATE/DELETE, the post-image for INSERT/UPDATE, and
auth.uid() as the acting principal. -/
def audit_trigger (changedBy : Option Nat) (table : TableName) (op : TgOp)
    (oldRow newRow : Option RowData) : AuditEntry :=
  { organization_id :=
      coalesce2 (newRow.map RowData.orgIdField) (oldRow.map RowData.orgIdField)
    table_name := table
    record_id :=
      coalesce2 (newRow.map RowData.idField) (oldRow.map RowData.idField)
    action := op
    old_data := if op = .updateOp ∨ op = .deleteOp then oldRow else none
    new_data := if op = .insertOp ∨ op = .updateOp then newRow else none
    changed_by := changedBy }

/-- audit_trigger_organizations: same as audit_trigger but the audited
table is organizations, whose own id is the organization_id. -/
def audit_trigger_organizations (changedBy : Option Nat) (op : TgOp)
    (oldRow newRow : Option Organization) : AuditEntry :=
  { organization_id :=
      coalesce2 (newRow.map Organization.id) (oldRow.map Organization.id)
    table_name := .organizations
    record_id :=
      coalesce2 (newRow.map Organization.id) (oldRow.map Organization.id)
    action := op
    old_data :=
      if op = .updateOp ∨ op = .deleteOp then oldRow.map RowData.organizationRow
      else none
    new_data :=
      if op = .insertOp ∨ op = .updateOp then newRow.map RowData.organizationRow
      else none
    changed_by := changedBy }

/-- Operations trg_inventory_audit is attached to: INSERT OR UPDATE OR
DELETE. -/
def trg_inventory_audit_ops : List TgOp := [.insertOp, .updateOp, .deleteOp]

/-- Operations trg_memberships_audit is attached to: INSERT OR UPDATE OR
DELETE. -/
def trg_memberships_audit_ops : List TgOp := [.insertOp, .updateOp, .deleteOp]

/-- Operations trg_organizations_audit is attached to: INSERT OR UPDATE
only; the schema attaches no DELETE trigger to organizations. -/
def trg_organizations_audit_ops : List TgOp := [.insertOp, .updateOp]

/-- Audit entries the inventory trigger writes for the affected rows of one
statement, given as (OLD, NEW) pairs: one entry per row when
trg_inventory_audit is attached to the operation, none otherwise. -/
def inventoryAuditEntries (uid : Option Nat) (op : TgOp)
    (rows : List (Option InventoryItem × Option InventoryItem)) :
    List AuditEntry :=
  if op ∈ trg_inventory_audit_ops then
    rows.map (fun p => audit_trigger uid .inventory op
      (p.1.map RowData.inventoryRow) (p.2.map RowData.inventoryRow))
  else []

/-- Audit entries the memberships trigger writes for the affected rows of
one statement. -/
def membershipAuditEntries (uid : Option Nat) (op : TgOp)
    (rows : List (Option Membership × Option Membership)) : List AuditEntry :=
  if op ∈ trg_memberships_audit_ops then
    rows.map (fun p => audit_trigger uid .memberships op
      (p.1.map RowData.membershipRow) (p.2.map RowData.membershipRow))
  else []

/-- Audit entries the organizations trigger writes for the affected rows of
one statement: empty for DELETE, to which trg_organizations_audit is not
attached. -/
def organizationAuditEntries (uid : Option Nat) (op : TgOp)
    (rows : List (Option Organization × Option Organization)) :
    List AuditEntry :=
  if op ∈ trg_organizations_audit_ops then
    rows.map (fun p => audit_trigger_organizations uid op p.1 p.2)
  else []

/-! Row mutation primitives. Each performs the table write and, in the same
transaction, prepends the audit entries of the attached triggers, one per
affected row. -/

/-- INSERT one inventory row. -/
def insertInventoryRow (uid : Option Nat) (r : InventoryItem) (db : DB) : DB :=
  { db with
    inventory := db.inventory ++ [r]
    audit_log := inventoryAuditEntries uid .insertOp [(none, some r)] ++
      db.audit_log }

/-- UPDATE inventory ... WHERE id = iid: rewrites every matching row and
audits each affected row. -/
def updateInventoryById (uid : Option Nat) (iid : Nat)
    (f : InventoryItem → InventoryItem) (db : DB) : DB :=
  let affected := db.inventory.filter (fun r => r.id == iid)
  { db with
    inventory := db.inventory.map (fun r => if r.id == iid then f r else r)
    audit_log := inventoryAuditEntries uid .updateOp
      (affected.map (fun r => (some r, some (f r)))) ++ db.audit_log }

/-- DELETE FROM inventory WHERE id = iid, with the ON DELETE CASCADE edges
of transactions and inventory_images, auditing each removed inventory
row. -/
def deleteInventoryById (uid : Option Nat) (iid : Nat) (db : DB) : DB :=
  let affected := db.inventory.filter (fun r => r.id == iid)
  { db with
    inventory := db.inventory.filter (fun r => !(r.id == iid))
    transactions := db.transactions.filter (fun t => !(t.inventory_id == iid))
    inventory_images :=
      db.inventory_images.filter (fun g => !(g.inventory_id == iid))
    audit_log := inventoryAuditEntries uid .deleteOp
      (affected.map (fun r => (some r, none))) ++ db.audit_log }

/-- INSERT one membership row, enforcing UNIQUE (user_id, organization_id);
a violation aborts the transaction. -/
def insertMembershipRow (uid : Option Nat) (m : Membership) (db : DB) :
    Except PgError DB :=
  if db.memberships.any (fun x =>
      x.user_id == m.user_id && x.organization_id == m.organization_id) then
    .error (.uniqueViolation .membershipUserOrg)
  else
    .ok { db with
      memberships := db.memberships ++ [m]
      audit_log := membershipAuditEntries uid .insertOp [(none, some m)] ++
        db.audit_log }

/-- UPDATE memberships ... WHERE id = mid. -/
def updateMembershipById (uid : Option Nat) (mid : Nat)
    (f : Membership → Membership) (db : DB) : DB :=
  let affected := db.memberships.filter (fun m => m.id == mid)
  { db with
    memberships := db.memberships.map (fun m => if m.id == mid then f m else m)
    audit_log := membershipAuditEntries uid .updateOp
      (affected.map (fun m => (some m, some (f m)))) ++ db.audit_log }

/-- DELETE FROM memberships WHERE id = mid, auditing each removed row. -/
def deleteMembershipById (uid : Option Nat) (mid : Nat) (db : DB) : DB :=
  let affected := db.memberships.filter (fun m => m.id == mid)
  { db with
    memberships := db.memberships.filter (fun m => !(m.id == mid))
    audit_log := membershipAuditEntries uid .deleteOp
      (affected.map (fun m => (some m, none))) ++ db.audit_log }

/-- INSERT one organizations row, enforcing the CHECK constraints
name_valid, slug_format and slug_not_reserved and the UNIQUE slug, drawing
the id from the freshness counter, and auditing the insert. -/
def insertOrganizationRow (uid : Option Nat) (nm slug : String) (db : DB) :
    Except PgError (Organization × DB) :=
  if !(name_valid_ok nm) then .error (.constraintViolation .nameValid)
  else if !(slug_format_ok slug) then .error (.constraintViolation .slugFormat)
  else if reserved_slugs.contains slug then
    .error (.constraintViolation .slugNotReserved)
  else if db.organizations.any (fun o => o.slug == slug) then
    .error (.uniqueViolation .slugUnique)
  else
    let org : Organization :=
      { id := db.next_id, name := nm, slug := slug, deleted_at := none }
    .ok (org, { db with
      organizations := db.organizations ++ [org]
      next_id := db.next_id + 1
      audit_log := organizationAuditEntries uid .insertOp [(none, some org)] ++
        db.audit_log })

/-- UPDATE organizations ... WHERE id = oid, auditing each affected row. -/
def updateOrganizationById (uid : Option Nat) (oid : Nat)
    (f : Organization → Organization) (db : DB) : DB :=
  let affected := db.organizations.filter (fun o => o.id == oid)
  { db with
    organizations :=
      db.organizations.map (fun o => if o.id == oid then f o else o)
    audit_log := organizationAuditEntries uid .updateOp
      (affected.map (fun o => (some o, some (f o)))) ++ db.audit_log }

/-- DELETE FROM organizations WHERE id = oid (a hard delete). The
organizations trigger is not attached to DELETE, so organizationAuditEntries
contributes nothing here; the ON DELETE CASCADE edges remove dependents,
and the delete triggers of cascaded memberships and inventory rows fire.
The foreign-key check those cascaded audit inserts would fail against the
dying organization is not modelled; the development only applies this
operation to organizations without dependents. -/
def deleteOrganizationById (uid : Option Nat) (oid : Nat) (db : DB) : DB :=
  let goneOrgs := db.organizations.filter (fun o => o.id == oid)
  let goneMs := db.memberships.filter (fun m => m.organization_id == oid)
  let goneInv := db.inventory.filter (fun r => r.organization_id == oid)
  { db with
    organizations := db.organizations.filter (fun o => !(o.id == oid))
    memberships := db.memberships.filter (fun m => !(m.organization_id == oid))
    inventory := db.inventory.filter (fun r => !(r.organization_id == oid))
    transactions := db.transactions.filter (fun t => !(t.organization_id == oid))
    invites := db.invites.filter (fun i => !(i.organization_id == oid))
    inventory_images :=
      db.inventory_images.filter (fun g => !(g.organization_id == oid))
    audit_log :=
      organizationAuditEntries uid .deleteOp
        (goneOrgs.map (fun o => (some o, none))) ++
      membershipAuditEntries uid .deleteOp
        (goneMs.map (fun m => (some m, none))) ++
      inventoryAuditEntries uid .deleteOp
        (goneInv.map (fun r => (some r, none))) ++
      db.audit_log.filter (fun a => !(a.organization_id == oid)) }

/-- INSERT one transactions row: no trigger is attached to transactions. -/
def insertTransactionRow (t : Transaction) (db : DB) : DB :=
  { db with transactions := db.transactions ++ [t] }

/-- Predicate of the partial unique index idx_invites_org_email_pending:
accepted_at IS NULL AND revoked_at IS NULL. Expiry by time is not part of
the index predicate. -/
def invite_index_pending (i : Invite) : Bool :=
  i.accepted_at.isNone && i.revoked_at.isNone

/-- INSERT one invites row, enforcing UNIQUE token and the partial unique
index idx_invites_org_email_pending; no trigger is attached to invites. -/
def insertInviteRow (inv : Invite) (db : DB) : Except PgError DB :=
  if db.invites.any (fun j => j.token == inv.token) then
    .error (.uniqueViolation .inviteTokenUnique)
  else if invite_index_pending inv &&
      db.invites.any (fun j => invite_index_pending j &&
        j.organization_id == inv.organization_id && j.email == inv.email) then
    .error (.uniqueViolation .invitesOrgEmailPending)
  else .ok { db with invites := db.invites ++ [inv] }

/-- UPDATE invites ... WHERE id = iid. Only used to set accepted_at, which
leaves the partial unique index, so the index is not re-checked here. -/
def updateInviteById (iid : Nat) (f : Invite → Invite) (db : DB) : DB :=
  { db with invites := db.invites.map (fun j => if j.id == iid then f j else j) }

/-! Row-level-security helper functions and policy predicates (initial
schema, with the inventory_images rewrite of the perf-fixes migration). -/

/-- get_user_org_ids: organizations the acting user belongs to whose
organization is not soft-deleted. -/
def get_user_org_ids (uid : Nat) (db : DB) : List Nat :=
  (db.memberships.filter (fun m => m.user_id == uid &&
      db.organizations.any (fun o =>
        o.id == m.organization_id && o.deleted_at.isNone))).map
    Membership.organization_id

/-- is_org_owner: the acting user holds an owner membership in the
organization; no soft-delete check. -/
def is_org_owner (uid : Nat) (org_id : Nat) (db : DB) : Bool :=
  db.memberships.any (fun m => m.user_id == uid &&
    m.organization_id == org_id && m.role == .owner)

/-- is_org_admin_or_owner: the acting user holds an owner or admin
membership in the organization; no soft-delete check. -/
def is_org_admin_or_owner (uid : Nat) (org_id : Nat) (db : DB) : Bool :=
  db.memberships.any (fun m => m.user_id == uid &&
    m.organization_id == org_id && (m.role == .owner || m.role == .admin))

/-- organizations policy Members view (SELECT). -/
def organizations_select_policy (uid : Nat) (o : Organization) (db : DB) : Bool :=
  (get_user_org_ids uid db).contains o.id && o.deleted_at.isNone

/-- organizations policy Admins update settings (UPDATE USING). -/
def organizations_update_policy (uid : Nat) (o : Organization) (db : DB) : Bool :=
  is_org_admin_or_owner uid o.id db && o.deleted_at.isNone

/-- organizations policy No direct inserts (INSERT WITH CHECK false). -/
def organizations_insert_policy (_ : Nat) (_ : Organization) (_ : DB) : Bool :=
  false

/-- memberships policy Members view (SELECT). -/
def memberships_select_policy (uid : Nat) (m : Membership) (db : DB) : Bool :=
  (get_user_org_ids uid db).contains m.organization_id

/-- memberships policy No direct inserts (INSERT WITH CHECK false). -/
def memberships_insert_policy (_ : Nat) (_ : Membership) (_ : DB) : Bool :=
  false

/-- memberships policy Owners update roles (UPDATE USING
is_org_owner(organization_id)); note no soft-delete and no sole-owner
guard here. -/
def memberships_update_policy (uid : Nat) (m : Membership) (db : DB) : Bool :=
  is_org_owner uid m.organization_id db

/-- memberships policy No direct deletes (DELETE USING false). -/
def memberships_delete_policy (_ : Nat) (_ : Membership) (_ : DB) : Bool :=
  false

/-- inventory policy Members view (SELECT). -/
def inventory_select_policy (uid : Nat) (r : InventoryItem) (db : DB) : Bool :=
  (get_user_org_ids uid db).contains r.organization_id && r.deleted_at.isNone

/-- inventory policy Members add (INSERT WITH CHECK). -/
def inventory_insert_policy (uid : Nat) (r : InventoryItem) (db : DB) : Bool :=
  (get_user_org_ids uid db).contains r.organization_id

/-- inventory policy Members update (UPDATE USING); no column restriction,
so any member of the owning organization may rewrite any column of a
non-deleted row, the status column included. -/
def inventory_update_policy (uid : Nat) (r : InventoryItem) (db : DB) : Bool :=
  (get_user_org_ids uid db).contains r.organization_id && r.deleted_at.isNone

/-- inventory policy Admins delete (DELETE USING). -/
def inventory_delete_policy (uid : Nat) (r : InventoryItem) (db : DB) : Bool :=
  is_org_admin_or_owner uid r.organization_id db

/-- transactions policy Members view (SELECT). -/
def transactions_select_policy (uid : Nat) (t : Transaction) (db : DB) : Bool :=
  (get_user_org_ids uid db).contains t.organization_id

/-- transactions policy Via RPC only (INSERT WITH CHECK false). -/
def transactions_insert_policy (_ : Nat) (_ : Transaction) (_ : DB) : Bool :=
  false

/-- invites policy Admins manage (FOR ALL USING
is_org_admin_or_owner(organization_id)); no soft-delete check. -/
def invites_all_policy (uid : Nat) (i : Invite) (db : DB) : Bool :=
  is_org_admin_or_owner uid i.organization_id db

/-- inventory_images select policy after the perf-fixes rewrite: raw
membership subquery, no soft-delete check. -/
def inventory_images_select_policy (uid : Nat) (g : InventoryImage) (db : DB) :
    Bool :=
  db.memberships.any (fun m =>
    m.user_id == uid && m.organization_id == g.organization_id)

/-- audit_log policy Admins view (SELECT). -/
def audit_log_select_policy (uid : Nat) (a : AuditEntry) (db : DB) : Bool :=
  is_org_admin_or_owner uid a.organization_id db

/-! Direct table writes admitted by row-level security. An UPDATE rewrites
exactly the rows its USING predicate admits; the policies here declare no
separate WITH CHECK, so the USING predicate is also checked against each
proposed new row (evaluated against the statement snapshot), and a failing
check aborts the statement. -/

/-- Direct INSERT into inventory under the Members add policy. -/
def direct_insert_inventory (uid : Nat) (r : InventoryItem) (db : DB) :
    Except PgError DB :=
  if inventory_insert_policy uid r db then
    .ok (insertInventoryRow (some uid) r db)
  else .error .withCheckViolation

/-- Direct UPDATE of an inventory row under the Members update policy. -/
def direct_update_inventory (uid iid : Nat)
    (f : InventoryItem → InventoryItem) (db : DB) : Except PgError DB :=
  let affected := db.inventory.filter (fun r =>
    r.id == iid && inventory_update_policy uid r db)
  if affected.all (fun r => inventory_update_policy uid (f r) db) then
    .ok { db with
      inventory := db.inventory.map (fun r =>
        if r.id == iid && inventory_update_policy uid r db then f r else r)
      audit_log := inventoryAuditEntries (some uid) .updateOp
        (affected.map (fun r => (some r, some (f r)))) ++ db.audit_log }
  else .error .withCheckViolation

/-- Direct UPDATE of a membership row under the Owners update roles
policy. -/
def direct_update_membership (uid mid : Nat)
    (f : Membership → Membership) (db : DB) : Except PgError DB :=
  let affected := db.memberships.filter (fun m =>
    m.id == mid && memberships_update_policy uid m db)
  if affected.all (fun m => memberships_update_policy uid (f m) db) then
    .ok { db with
      memberships := db.memberships.map (fun m =>
        if m.id == mid && memberships_update_policy uid m db then f m else m)
      audit_log := membershipAuditEntries (some uid) .updateOp
        (affected.map (fun m => (some m, some (f m)))) ++ db.audit_log }
  else .error .withCheckViolation

/-! The privileged RPC procedures, from the security-fixes migration
20260209000002 (and 20260209000003 for leave_organization). Each runs
SECURITY DEFINER, so row policies do not constrain its writes; any raised
error aborts the whole call, so an error result carries no new state. -/

/-- create_organization(p_name, p_slug): validates the slug regex, then
inserts the organization (subject to the table constraints) and an owner
membership for the caller; both inserts belong to one transaction. -/
def create_organization (uid : Nat) (p_name p_slug : String) (now : Nat)
    (db : DB) : Except PgError (Organization × DB) :=
  if !(slug_format_ok p_slug) then .error .invalidSlugFormat
  else
    match insertOrganizationRow (some uid) p_name p_slug db with
    | .error e => .error e
    | .ok (org, db1) =>
      match insertMembershipRow (some uid)
          { id := db1.next_id, user_id := uid, organization_id := org.id
            role := .owner, invited_by := none, invited_at := none
            accepted_at := some now }
          { db1 with next_id := db1.next_id + 1 } with
      | .error e => .error e
      | .ok db2 => .ok (org, db2)

/-- accept_invite(p_token): looks the invite up by token and validates, in
the order of the source, that it exists, is not revoked, not already
accepted, not expired, that the target organization is not soft-deleted
and that the caller's registered email matches the invite email ignoring
case (the SQL inequality of two LOWER values is null, hence not taken,
when the caller has no users row); then inserts the membership carrying
the invite's role and marks the invite accepted. -/
def accept_invite (uid : Nat) (p_token : String) (now : Nat) (db : DB) :
    Except PgError (Membership × DB) :=
  match db.invites.find? (fun i => i.token == p_token) with
  | none => .error .invalidInviteToken
  | some inv =>
    if inv.revoked_at.isSome then .error .inviteRevoked
    else if inv.accepted_at.isSome then .error .inviteAlreadyUsed
    else if inv.expires_at < now then .error .inviteExpired
    else if db.organizations.any (fun o =>
        o.id == inv.organization_id && o.deleted_at.isSome) then
      .error .orgDeleted
    else if (match db.users.find? (fun u => u.id == uid) with
             | some u => !(lower_eq u.email inv.email)
             | none => false) then
      .error .emailMismatch
    else
      let m : Membership :=
        { id := db.next_id, user_id := uid
          organization_id := inv.organization_id, role := inv.role
          invited_by := inv.invited_by, invited_at := some inv.created_at
          accepted_at := some now }
      match insertMembershipRow (some uid) m
          { db with next_id := db.next_id + 1 } with
      | .error e => .error e
      | .ok db1 =>
        .ok (m, updateInviteById inv.id
          (fun j => { j with accepted_at := some now }) db1)

/-- mark_card_sold(p_inventory_id, p_sold_price, p_buyer_email,
p_buyer_notes): selects the non-deleted inventory row for update, requires
it to exist, be available, and the caller to hold any membership in its
organization; no check of the owning organization's deleted_at. Then sets
the row sold and inserts the sale transaction. -/
def mark_card_sold (uid : Nat) (p_inventory_id : Nat) (p_sold_price : Int)
    (p_buyer_email p_buyer_notes : Option String) (db : DB) :
    Except PgError (Transaction × DB) :=
  match db.inventory.find? (fun r =>
      r.id == p_inventory_id && r.deleted_at.isNone) with
  | none => .error .itemNotFound
  | some item =>
    if !(item.status == .available) then .error (.itemNotAvailable item.status)
    else if !(db.memberships.any (fun m =>
        m.user_id == uid && m.organization_id == item.organization_id)) then
      .error .accessDenied
    else
      let db1 := updateInventoryById (some uid) p_inventory_id
        (fun r => { r with status := .sold, updated_by := some uid }) db
      let tx : Transaction :=
        { id := db1.next_id, organization_id := item.organization_id
          inventory_id := p_inventory_id, sold_price := p_sold_price
          sold_by := some uid, buyer_email := p_buyer_email
          buyer_notes := p_buyer_notes }
      .ok (tx, insertTransactionRow tx { db1 with next_id := db1.next_id + 1 })

/-- soft_delete_organization(p_org_id): requires an owner membership of the
caller, then sets deleted_at. -/
def soft_delete_organization (uid : Nat) (p_org_id : Nat) (now : Nat)
    (db : DB) : Except PgError DB :=
  if !(db.memberships.any (fun m => m.user_id == uid &&
      m.organization_id == p_org_id && m.role == .owner)) then
    .error .onlyOwnersCanDelete
  else
    .ok (updateOrganizationById (some uid) p_org_id
      (fun o => { o with deleted_at := some now }) db)

/-- leave_organization(p_org_id), final version from migration
20260209000003: locks the caller's membership row, requires membership,
and when the caller is an owner requires another owner to exist; then
deletes the caller's membership by its id. -/
def leave_organization (uid : Nat) (p_org_id : Nat) (db : DB) :
    Except PgError DB :=
  match db.memberships.find? (fun m =>
      m.user_id == uid && m.organization_id == p_org_id) with
  | none => .error .notAMember
  | some my =>
    if my.role == .owner then
      if (db.memberships.filter (fun m =>
          m.organization_id == p_org_id && m.role == .owner)).length ≤ 1 then
        .error .soleOwner
      else .ok (deleteMembershipById (some uid) my.id db)
    else .ok (deleteMembershipById (some uid) my.id db)

/-! Invariants named by the specification. -/

/-- Number of owner memberships an organization has. -/
def ownerCount (db : DB) (oid : Nat) : Nat :=
  (db.memberships.filter (fun m =>
    m.organization_id == oid && m.role == .owner)).length

/-- Orphan-prevention invariant: every organization row has at least one
owner membership. -/
def orgHasOwner (db : DB) : Prop :=
  ∀ o ∈ db.organizations, 1 ≤ ownerCount db o.id

/-- Number of transaction records referencing an inventory item. -/
def txCount (db : DB) (iid : Nat) : Nat :=
  (db.transactions.filter (fun t => t.inventory_id == iid)).length

/-- Exactly-once sale invariant: each inventory item is referenced by at
most one transaction, and by exactly one precisely when it is sold. -/
def txInvariant (db : DB) : Prop :=
  ∀ r ∈ db.inventory, txCount db r.id ≤ 1 ∧ (txCount db r.id = 1 ↔ r.status = .sold)

/-- Uniqueness invariant of idx_invites_org_email_pending: at most one
invite per (organization, email) pair is neither accepted nor revoked. -/
def pendingUnique (db : DB) : Prop :=
  db.invites.Pairwise (fun a b =>
    invite_index_pending a = true → invite_index_pending b = true →
    a.organization_id ≠ b.organization_id ∨ a.email ≠ b.email)

/-! Concrete states for the counterexamples and witnesses below. Chained
states are produced by the modelled operations themselves, so each final
state is reachable from its start state through admitted operations. -/

/-- Start state of the exactly-once-sale scenario: one registered user,
nothing else. -/
def c1_db0 : DB :=
  { users := [{ id := 1, email := "owner@x.com" }], organizations := [],
    memberships := [], inventory := [], transactions := [], invites := [],
    inventory_images := [], audit_log := [], next_id := 10 }

/-- State after user 1 creates the organization (id 10, owner membership
id 11). -/
def c1_db1 : DB :=
  match create_organization 1 "Moody Cards" "moody-cards" 5 c1_db0 with
  | .ok p => p.2
  | .error _ => c1_db0

/-- An available card of organization 10. -/
def c1_item : InventoryItem :=
  { id := 12, organization_id := 10, card_name := "Charizard",
    status := .available, updated_by := none, deleted_at := none }

/-- State after member 1 inserts the card through the Members add
policy. -/
def c1_db2 : DB :=
  match direct_insert_inventory 1 c1_item { c1_db1 with next_id := 13 } with
  | .ok d => d
  | .error _ => c1_db1

/-- State after member 1 directly rewrites the card's status to sold
through the Members update policy, with no transaction row inserted. -/
def c1_db3 : DB :=
  match direct_update_inventory 1 12
      (fun r => { r with status := .sold }) c1_db2 with
  | .ok d => d
  | .error _ => c1_db2

/-- A state with one organization, one owner membership and one available
card, satisfying the sale invariant. -/
def c1w_db : DB :=
  { users := [{ id := 1, email := "owner@x.com" }],
    organizations :=
      [{ id := 10, name := "Moody Cards", slug := "moody-cards",
         deleted_at := none }],
    memberships :=
      [{ id := 11, user_id := 1, organization_id := 10, role := .owner,
         invited_by := none, invited_at := none, accepted_at := some 5 }],
    inventory := [c1_item], transactions := [], invites := [],
    inventory_images := [], audit_log := [], next_id := 13 }

/-- State after selling the card of c1w_db through mark_card_sold. -/
def c1w_after : DB :=
  match mark_card_sold 1 12 100 none none c1w_db with
  | .ok p => p.2
  | .error _ => c1w_db

/-- Start state of the sole-owner-demotion scenario. -/
def c2_db0 : DB :=
  { users := [{ id := 1, email := "owner@x.com" }], organizations := [],
    memberships := [], inventory := [], transactions := [], invites := [],
    inventory_images := [], audit_log := [], next_id := 20 }

/-- State after user 1 creates the organization (id 20, owner membership
id 21). -/
def c2_db1 : DB :=
  match create_organization 1 "Solo Store" "solo-store" 5 c2_db0 with
  | .ok p => p.2
  | .error _ => c2_db0

/-- State after owner 1 demotes their own membership to member through the
Owners update roles policy. -/
def c2_db2 : DB :=
  match direct_update_membership 1 21
      (fun m => { m with role := .member }) c2_db1 with
  | .ok d => d
  | .error _ => c2_db1

/-- An organization with no dependent rows. -/
def c3_org : Organization :=
  { id := 30, name := "Ghost Store", slug := "ghost-store",
    deleted_at := none }

/-- A state holding only that organization. -/
def c3_db : DB :=
  { users := [], organizations := [c3_org], memberships := [],
    inventory := [], transactions := [], invites := [],
    inventory_images := [], audit_log := [], next_id := 31 }

/-- A membership row of organization 30. -/
def c3w_m : Membership :=
  { id := 32, user_id := 1, organization_id := 30, role := .owner,
    invited_by := none, invited_at := none, accepted_at := some 0 }

/-- An inventory row of organization 30. -/
def c3w_item : InventoryItem :=
  { id := 33, organization_id := 30, card_name := "Mewtwo",
    status := .available, updated_by := none, deleted_at := none }

/-- A state with one row of each audited table, for the audit witness. -/
def c3w_db : DB :=
  { users := [{ id := 1, email := "owner@x.com" }],
    organizations := [c3_org], memberships := [c3w_m],
    inventory := [c3w_item], transactions := [], invites := [],
    inventory_images := [], audit_log := [], next_id := 35 }

/-- A pending, unexpired invite of organization 41 for bob. -/
def c4_invite : Invite :=
  { id := 40, organization_id := 41, email := "bob@x.com", role := .member,
    token := "tok-abc", invited_by := some 1, created_at := 0,
    expires_at := 100, accepted_at := none, revoked_at := none }

/-- A state where bob (user 2) can accept that invite. -/
def c4_db : DB :=
  { users := [{ id := 1, email := "ann@x.com" },
              { id := 2, email := "bob@x.com" }],
    organizations :=
      [{ id := 41, name := "Ann Cards", slug := "ann-cards",
         deleted_at := none }],
    memberships :=
      [{ id := 42, user_id := 1, organization_id := 41, role := .owner,
         invited_by := none, invited_at := none, accepted_at := some 0 }],
    inventory := [], transactions := [], invites := [c4_invite],
    inventory_images := [], audit_log := [], next_id := 50 }

/-- State after bob accepts the invite at time 10. -/
def c4_db1 : DB :=
  match accept_invite 2 "tok-abc" 10 c4_db with
  | .ok p => p.2
  | .error _ => c4_db

/-- A state with one registered user and no organizations. -/
def c6_db : DB :=
  { users := [{ id := 1, email := "ann@x.com" }], organizations := [],
    memberships := [], inventory := [], transactions := [], invites := [],
    inventory_images := [], audit_log := [], next_id := 60 }

/-- First owner of organization 70. -/
def c7_m1 : Membership :=
  { id := 71, user_id := 1, organization_id := 70, role := .owner,
    invited_by := none, invited_at := none, accepted_at := some 0 }

/-- Second owner of organization 70. -/
def c7_m2 : Membership :=
  { id := 72, user_id := 2, organization_id := 70, role := .owner,
    invited_by := none, invited_at := none, accepted_at := some 0 }

/-- A plain member of organization 70. -/
def c7_m3 : Membership :=
  { id := 73, user_id := 3, organization_id := 70, role := .member,
    invited_by := none, invited_at := none, accepted_at := some 0 }

/-- A state with an organization held by two owners and a member. -/
def c7_db : DB :=
  { users := [{ id := 1, email := "u1@x.com" },
              { id := 2, email := "u2@x.com" },
              { id := 3, email := "u3@x.com" }],
    organizations :=
      [{ id := 70, name := "Two Owners", slug := "two-owners",
         deleted_at := none }],
    memberships := [c7_m1, c7_m2, c7_m3],
    inventory := [], transactions := [], invites := [],
    inventory_images := [], audit_log := [], next_id := 80 }

/-- The sole owner membership of organization 75. -/
def c7_solo_m : Membership :=
  { id := 76, user_id := 1, organization_id := 75, role := .owner,
    invited_by := none, invited_at := none, accepted_at := some 0 }

/-- A state whose organization has exactly one owner. -/
def c7_solo : DB :=
  { users := [{ id := 1, email := "u1@x.com" }],
    organizations :=
      [{ id := 75, name := "Solo Biz", slug := "solo-biz",
         deleted_at := none }],
    memberships := [c7_solo_m],
    inventory := [], transactions := [], invites := [],
    inventory_images := [], audit_log := [], next_id := 80 }

/-- A soft-deleted organization. -/
def c8_org : Organization :=
  { id := 100, name := "Dead Store", slug := "dead-store",
    deleted_at := some 60 }

/-- An owner membership of the soft-deleted organization. -/
def c8_member : Membership :=
  { id := 102, user_id := 2, organization_id := 100, role := .owner,
    invited_by := none, invited_at := none, accepted_at := some 0 }

/-- An invite row of the soft-deleted organization. -/
def c8_invite : Invite :=
  { id := 101, organization_id := 100, email := "eve@x.com",
    role := .member, token := "tok-dead", invited_by := none,
    created_at := 0, expires_at := 999, accepted_at := none,
    revoked_at := none }

/-- An inventory row of the soft-deleted organization. -/
def c8_item : InventoryItem :=
  { id := 103, organization_id := 100, card_name := "Mew",
    status := .available, updated_by := none, deleted_at := none }

/-- An audit row of the soft-deleted organization. -/
def c8_audit : AuditEntry :=
  { organization_id := 100, table_name := .inventory, record_id := 7,
    action := .insertOp, old_data := none, new_data := none,
    changed_by := none }

/-- A state around the soft-deleted organization. -/
def c8_db : DB :=
  { users := [{ id := 2, email := "bob@x.com" }],
    organizations := [c8_org], memberships := [c8_member],
    inventory := [c8_item], transactions := [], invites := [c8_invite],
    inventory_images := [], audit_log := [c8_audit], next_id := 110 }

/-- An invite that is expired by time but neither accepted nor revoked. -/
def c9_old : Invite :=
  { id := 120, organization_id := 121, email := "joe@x.com",
    role := .member, token := "tok-old", invited_by := none,
    created_at := 0, expires_at := 10, accepted_at := none,
    revoked_at := none }

/-- A fresh invite for the same organization and email. -/
def c9_new : Invite :=
  { id := 122, organization_id := 121, email := "joe@x.com",
    role := .member, token := "tok-new", invited_by := none,
    created_at := 20, expires_at := 200, accepted_at := none,
    revoked_at := none }

/-- A state holding only the expired invite. -/
def c9_db : DB :=
  { users := [], organizations := [], memberships := [], inventory := [],
    transactions := [], invites := [c9_old], inventory_images := [],
    audit_log := [], next_id := 130 }

/-- A state with no invites at all. -/
def c9w_db : DB :=
  { users := [], organizations := [], memberships := [], inventory := [],
    transactions := [], invites := [], inventory_images := [],
    audit_log := [], next_id := 130 }

/-- A soft-deleted organization still holding an available card. -/
def c10_org : Organization :=
  { id := 90, name := "Closed Store", slug := "closed-store",
    deleted_at := some 50 }

/-- The available, non-deleted card of the soft-deleted organization. -/
def c10_item : InventoryItem :=
  { id := 91, organization_id := 90, card_name := "Pikachu",
    status := .available, updated_by := none, deleted_at := none }

/-- A state where member 2 of the soft-deleted organization can still sell
the card. -/
def c10_db : DB :=
  { users := [{ id := 2, email := "bob@x.com" }],
    organizations := [c10_org],
    memberships :=
      [{ id := 92, user_id := 2, organization_id := 90, role := .member,
         invited_by := none, invited_at := none, accepted_at := some 0 }],
    inventory := [c10_item], transactions := [], invites := [],
    inventory_images := [], audit_log := [], next_id := 95 }

/-- State after the second owner leaves organization 70. -/
def c2w_after : DB :=
  match leave_organization 2 70 c7_db with
  | .ok d => d
  | .error _ => c7_db

/-- State after user 3 creates a fresh organization next to organization
70. -/
def c2w_created : DB :=
  match create_organization 3 "New Shop" "new-shop" 9 c7_db with
  | .ok p => p.2
  | .error _ => c7_db

/-- A fresh inventory row for organization 30. -/
def c3w_newItem : InventoryItem :=
  { id := 36, organization_id := 30, card_name := "Eevee",
    status := .available, updated_by := none, deleted_at := none }

/-- A fresh membership row for organization 30 (new user). -/
def c3w_newMember : Membership :=
  { id := 37, user_id := 5, organization_id := 30, role := .member,
    invited_by := none, invited_at := none, accepted_at := none }

/-- State after inserting that membership. -/
def c3w_memIns : DB :=
  match insertMembershipRow (some 9) c3w_newMember c3w_db with
  | .ok d => d
  | .error _ => c3w_db

/-- State after inserting a fresh organization. -/
def c3w_orgIns : DB :=
  match insertOrganizationRow (some 9) "New Store" "new-store" c3w_db with
  | .ok p => p.2
  | .error _ => c3w_db

/-- A transaction row of the soft-deleted organization. -/
def c8w_tx : Transaction :=
  { id := 105, organization_id := 100, inventory_id := 103,
    sold_price := 50, sold_by := none, buyer_email := none,
    buyer_notes := none }

/-- State after inserting the fresh invite into the empty-invite state. -/
def c9w_db1 : DB :=
  match insertInviteRow c9_new c9w_db with
  | .ok d => d
  | .error _ => c9w_db

instance (db : DB) : Decidable (orgHasOwner db) :=
  inferInstanceAs (Decidable (∀ o ∈ db.organizations, 1 ≤ ownerCount db o.id))

instance (db : DB) : Decidable (txInvariant db) :=
  inferInstanceAs (Decidable (∀ r ∈ db.inventory,
    txCount db r.id ≤ 1 ∧ (txCount db r.id = 1 ↔ r.status = .sold)))

instance (db : DB) : Decidable (pendingUnique db) :=
  inferInstanceAs (Decidable (db.invites.Pairwise (fun a b =>
    invite_index_pending a = true → invite_index_pending b = true →
    a.organization_id ≠ b.organization_id ∨ a.email ≠ b.email)))

end CardStock

deriving instance DecidableEq for Except

namespace CardStock

/-! List-level helper lemmas shared by the claim theorems. -/

/-- A list with nodup keys holds at most one element of any given key. -/
theorem filter_key_length_le_one {α : Type} (key : α → Nat) :
    ∀ (l : List α), (l.map key).Nodup → ∀ v : Nat,
      (l.filter (fun a => key a == v)).length ≤ 1 := by
  intro l
  induction l with
  | nil => intro _ v; simp
  | cons a t ih =>
    intro h v
    rw [List.map_cons, List.nodup_cons] at h
    rcases h with ⟨hna, hnd⟩
    cases hk : (key a == v) with
    | false => simpa [List.filter_cons, hk] using ih hnd v
    | true =>
      have hkv : key a = v := by simpa using hk
      have ht : t.filter (fun x => key x == v) = [] := by
        refine List.filter_eq_nil_iff.mpr ?_
        intro x hx hxv
        apply hna
        have hx2 : key x = v := by simpa using hxv
        rw [hkv, ← hx2]
        exact List.mem_map_of_mem key hx
      simp [List.filter_cons, hk, ht]

/-- In a list with nodup keys, filtering for the key of a member returns
exactly that member. -/
theorem filter_key_eq_singleton {α : Type} (key : α → Nat) :
    ∀ (l : List α), (l.map key).Nodup → ∀ a : α, a ∈ l →
      l.filter (fun x => key x == key a) = [a] := by
  intro l
  induction l with
  | nil => intro _ a ha; cases ha
  | cons b t ih =>
    intro h a ha
    rw [List.map_cons, List.nodup_cons] at h
    rcases h with ⟨hnb, hnd⟩
    rcases List.mem_cons.mp ha with rfl | hat
    · have ht : t.filter (fun x => key x == key a) = [] := by
        refine List.filter_eq_nil_iff.mpr ?_
        intro x hx hxv
        apply hnb
        have hx2 : key x = key a := by simpa using hxv
        rw [← hx2]
        exact List.mem_map_of_mem key hx
      simp [List.filter_cons, ht]
    · have hbk : (key b == key a) = false := by
        refine beq_eq_false_iff_ne.mpr ?_
        intro heq
        exact hnb (heq ▸ List.mem_map_of_mem key hat)
      simp [List.filter_cons, hbk, ih hnd a hat]

/-- Splitting a filtered length along a second predicate. -/
theorem length_filter_split {α : Type} (p q : α → Bool) :
    ∀ (l : List α), (l.filter p).length =
      (l.filter (fun a => p a && q a)).length +
      (l.filter (fun a => p a && !(q a))).length := by
  intro l
  induction l with
  | nil => simp
  | cons a t ih =>
    cases hp : p a <;> cases hq : q a <;>
      simp [List.filter_cons, hp, hq, ih] <;> omega

/-- A conjunction filter is no longer than the filter of its right
conjunct. -/
theorem length_filter_and_le_right {α : Type} (p q : α → Bool) (l : List α) :
    (l.filter (fun a => p a && q a)).length ≤ (l.filter q).length := by
  induction l with
  | nil => simp
  | cons a t ih =>
    cases hp : p a <;> cases hq : q a <;>
      simp [List.filter_cons, hp, hq] <;> omega

/-- Dropping a negated conjunct that never cuts anything. -/
theorem filter_and_not_eq {α : Type} (p q : α → Bool) (l : List α)
    (h : ∀ a ∈ l, p a = true → q a = false) :
    l.filter (fun a => p a && !(q a)) = l.filter p := by
  refine List.filter_congr ?_
  intro a ha
  cases hp : p a
  · simp
  · simp [h a ha hp]

/-- find? commutes with a map that preserves the predicate. -/
theorem find?_map_pred {α : Type} (f : α → α) (p : α → Bool)
    (hp : ∀ a, p (f a) = p a) :
    ∀ (l : List α), (l.map f).find? p = (l.find? p).map f := by
  intro l
  induction l with
  | nil => rfl
  | cons a t ih =>
    cases hpa : p a with
    | false =>
      have : p (f a) = false := by rw [hp a, hpa]
      simp [List.find?, this, hpa, ih]
    | true =>
      have : p (f a) = true := by rw [hp a, hpa]
      simp [List.find?, this, hpa]

end CardStock

namespace CardStock

/-- C1 counterexample: from an empty store, user 1 creates an organization,
inserts an available card through the Members add policy, then rewrites
the card's status to sold through the Members update policy; every step is
admitted, yet the final reachable state has a sold item with zero
transaction records, so the count-iff-sold invariant fails under the direct
inventory writes that row-level policy admits to members. -/
theorem C1_sale_invariant_counterexample :
    (create_organization 1 "Moody Cards" "moody-cards" 5 c1_db0).isOk = true ∧
    (direct_insert_inventory 1 c1_item { c1_db1 with next_id := 13 }).isOk = true ∧
    (direct_update_inventory 1 12
      (fun r => { r with status := InvStatus.sold }) c1_db2).isOk = true ∧
    c1_db3.inventory = [{ c1_item with status := .sold }] ∧
    txCount c1_db3 12 = 0 ∧
    ¬ txInvariant c1_db3 := by
  refine ⟨by decide, by decide, by decide, by decide, by decide, by decide⟩

/-- C2 counterexample: user 1 creates an organization, becoming its sole
owner, then demotes their own membership to member through the Owners
update roles policy; the update is admitted, and the resulting reachable
state has a live organization with zero owners. -/
theorem C2_owner_invariant_counterexample :
    (create_organization 1 "Solo Store" "solo-store" 5 c2_db0).isOk = true ∧
    orgHasOwner c2_db1 ∧
    (direct_update_membership 1 21
      (fun m => { m with role := Role.member }) c2_db1).isOk = true ∧
    (∃ o ∈ c2_db2.organizations, o.deleted_at = none ∧
      ownerCount c2_db2 o.id = 0) ∧
    ¬ orgHasOwner c2_db2 := by
  refine ⟨by decide, by decide, by decide, by decide, by decide⟩

/-- C3 counterexample: deleting an organizations row (a governed-table
mutation) writes no audit entry at all, because trg_organizations_audit is
attached to INSERT OR UPDATE only. -/
theorem C3_audit_counterexample :
    c3_org ∈ c3_db.organizations ∧
    c3_db.audit_log = [] ∧
    (deleteOrganizationById (some 1) 30 c3_db).organizations = [] ∧
    (deleteOrganizationById (some 1) 30 c3_db).audit_log = [] := by
  refine ⟨by decide, by decide, by decide, by decide⟩

/-- C8 counterexample: for rows of a soft-deleted organization, the
policies built on is_org_owner and is_org_admin_or_owner still evaluate to
true for a suitable principal, because those helpers never inspect
deleted_at: the invites Admins manage policy, the audit_log Admins view
policy, the memberships Owners update roles policy and the inventory
Admins delete policy all admit user 2 on rows of the soft-deleted
organization 100. -/
theorem C8_policy_counterexample :
    c8_org ∈ c8_db.organizations ∧
    c8_org.deleted_at = some 60 ∧
    invites_all_policy 2 c8_invite c8_db = true ∧
    audit_log_select_policy 2 c8_audit c8_db = true ∧
    memberships_update_policy 2 c8_member c8_db = true ∧
    inventory_delete_policy 2 c8_item c8_db = true := by
  refine ⟨by decide, by decide, by decide, by decide, by decide, by decide⟩

/-- C9 counterexample: an invite that is expired by time (so the Accept
procedure rejects it) but neither accepted nor revoked still satisfies the
partial unique index predicate, so creating a new invite for the same
(organization, email) pair fails instead of superseding the expired one. -/
theorem C9_supersede_counterexample :
    c9_old.expires_at < 20 ∧
    invite_index_pending c9_old = true ∧
    accept_invite 5 "tok-old" 20 c9_db = .error .inviteExpired ∧
    c9_new.organization_id = c9_old.organization_id ∧
    c9_new.email = c9_old.email ∧
    insertInviteRow c9_new c9_db =
      .error (.uniqueViolation .invitesOrgEmailPending) := by
  refine ⟨by decide, by decide, by decide, by decide, by decide, by decide⟩

end CardStock

namespace CardStock

/-- C6: create_organization rejects a malformed slug with the procedure's
own validation error and rejects every reserved slug through the table's
slug_not_reserved check constraint, both of ValidationError kind and both
aborting the transaction with no state change (an error result carries no
state); on success the organization row and the caller's owner membership
are inserted together, so both are present in the result state. -/
theorem C6_create_organization_spec (uid : Nat) (nm slug : String)
    (now : Nat) (db : DB) :
    (slug_format_ok slug = false →
      create_organization uid nm slug now db = .error .invalidSlugFormat ∧
      kindOf .invalidSlugFormat = .validationError) ∧
    (slug ∈ reserved_slugs →
      ∃ e, create_organization uid nm slug now db = .error e ∧
        kindOf e = .validationError) ∧
    (slug_format_ok slug = true → slug ∉ reserved_slugs →
      name_valid_ok nm = true →
      (∀ o ∈ db.organizations, o.slug ≠ slug) →
      (∀ m ∈ db.memberships, m.organization_id ≠ db.next_id) →
      ∃ org db', create_organization uid nm slug now db = .ok (org, db') ∧
        org.slug = slug ∧ org.name = nm ∧ org.deleted_at = none ∧
        org ∈ db'.organizations ∧
        ∃ mem ∈ db'.memberships, mem.user_id = uid ∧
          mem.organization_id = org.id ∧ mem.role = .owner) := by
  refine ⟨?_, ?_, ?_⟩
  · intro h
    exact ⟨by simp [create_organization, h], rfl⟩
  · intro hres
    cases hfmt : slug_format_ok slug with
    | false =>
      exact ⟨.invalidSlugFormat, by simp [create_organization, hfmt], rfl⟩
    | true =>
      cases hnm : name_valid_ok nm with
      | false =>
        refine ⟨.constraintViolation .nameValid, ?_, rfl⟩
        simp [create_organization, insertOrganizationRow, hfmt, hnm]
      | true =>
        refine ⟨.constraintViolation .slugNotReserved, ?_, rfl⟩
        simp [create_organization, insertOrganizationRow, hfmt, hnm, hres]
  · intro hfmt hres hnm horgs hms
    have h1 : ¬ ∃ o ∈ db.organizations, o.slug = slug := by
      rintro ⟨o, ho, hs⟩
      exact horgs o ho hs
    have h2 : ¬ ∃ m ∈ db.memberships,
        m.user_id = uid ∧ m.organization_id = db.next_id := by
      rintro ⟨m, hm, _, hmo⟩
      exact hms m hm hmo
    refine ⟨⟨db.next_id, nm, slug, none⟩,
      { db with
          organizations := db.organizations ++ [⟨db.next_id, nm, slug, none⟩],
          memberships := db.memberships ++
            [⟨db.next_id + 1, uid, db.next_id, Role.owner, none, none, some now⟩],
          audit_log :=
            membershipAuditEntries (some uid) .insertOp
                [(none, some ⟨db.next_id + 1, uid, db.next_id, Role.owner, none, none, some now⟩)] ++
              (organizationAuditEntries (some uid) .insertOp
                  [(none, some ⟨db.next_id, nm, slug, none⟩)] ++ db.audit_log),
          next_id := db.next_id + 1 + 1 }, ?_, rfl, rfl, rfl, ?_, ?_⟩
    · simp [create_organization, insertOrganizationRow, insertMembershipRow,
        hfmt, hnm, hres, h1, h2]
    · simp
    · exact ⟨⟨db.next_id + 1, uid, db.next_id, Role.owner, none, none, some now⟩,
        by simp, rfl, rfl, rfl⟩

end CardStock

namespace CardStock

/-- C7: leave_organization called by the sole owner fails with the
sole-owner error of InvariantViolation kind and, the transaction aborting,
deletes nothing; called by a member who is not the sole owner it deletes
exactly the caller's own membership row (and audits the deletion); called
by a non-member it fails with no state change. -/
theorem C7_leave_organization_spec (uid oid : Nat) (db : DB)
    (hids : (db.memberships.map Membership.id).Nodup) :
    (db.memberships.find? (fun m =>
        m.user_id == uid && m.organization_id == oid) = none →
      leave_organization uid oid db = .error .notAMember) ∧
    (∀ my, db.memberships.find? (fun m =>
        m.user_id == uid && m.organization_id == oid) = some my →
      ((my.role = .owner ∧ ownerCount db oid ≤ 1) →
        leave_organization uid oid db = .error .soleOwner ∧
        kindOf .soleOwner = .invariantViolation) ∧
      ((my.role ≠ .owner ∨ 2 ≤ ownerCount db oid) →
        my.user_id = uid ∧ my.organization_id = oid ∧
        leave_organization uid oid db = .ok { db with
          memberships := db.memberships.filter (fun m => !(m.id == my.id)),
          audit_log := membershipAuditEntries (some uid) .deleteOp
            [(some my, none)] ++ db.audit_log })) := by
  constructor
  · intro h
    simp [leave_organization, h]
  · intro my hfind
    have hp := List.find?_some hfind
    simp only [Bool.and_eq_true, beq_iff_eq] at hp
    have hmem := List.mem_of_find?_eq_some hfind
    have haff : db.memberships.filter (fun m => m.id == my.id) = [my] :=
      filter_key_eq_singleton Membership.id db.memberships hids my hmem
    have hdel : deleteMembershipById (some uid) my.id db = { db with
        memberships := db.memberships.filter (fun m => !(m.id == my.id)),
        audit_log := membershipAuditEntries (some uid) .deleteOp
          [(some my, none)] ++ db.audit_log } := by
      simp [deleteMembershipById, haff]
    constructor
    · rintro ⟨hrole, hcnt⟩
      refine ⟨?_, rfl⟩
      have hb : (my.role == Role.owner) = true := by simp [hrole]
      simp only [ownerCount] at hcnt
      simp [leave_organization, hfind, hb, hcnt]
    · intro hcase
      refine ⟨hp.1, hp.2, ?_⟩
      rcases hcase with hrole | hcnt
      · have hb : (my.role == Role.owner) = false := by
          simpa using hrole
        simp [leave_organization, hfind, hb, hdel]
      · have hc2 : ¬ (db.memberships.filter (fun m =>
            m.organization_id == oid && m.role == .owner)).length ≤ 1 := by
          simp only [ownerCount] at hcnt
          omega
        cases hb : (my.role == Role.owner) with
        | false => simp [leave_organization, hfind, hb, hdel]
        | true => simp [leave_organization, hfind, hb, hc2, hdel]

end CardStock

namespace CardStock

/-- C10: mark_card_sold never inspects the owning organization's
soft-delete marker: for an available, non-soft-deleted item whose owning
organization is soft-deleted, a caller holding any membership in that
organization still succeeds, the item is marked sold and a transaction
record referencing it is inserted; the soft-deletion hypothesis on the
organization is never consulted, unlike accept_invite which checks it. -/
theorem C10_mark_card_sold_ignores_org_deletion (uid iid : Nat) (price : Int)
    (t0 : Nat) (db : DB) (item : InventoryItem)
    (hids : (db.inventory.map InventoryItem.id).Nodup)
    (hitem : item ∈ db.inventory) (hid : item.id = iid)
    (hdel : item.deleted_at = none) (hav : item.status = .available)
    (hmem : ∃ m ∈ db.memberships, m.user_id = uid ∧
      m.organization_id = item.organization_id)
    (horg : ∃ o ∈ db.organizations, o.id = item.organization_id ∧
      o.deleted_at = some t0) :
    ∃ tx db', mark_card_sold uid iid price none none db = .ok (tx, db') ∧
      tx.inventory_id = iid ∧ tx.organization_id = item.organization_id ∧
      tx ∈ db'.transactions ∧
      ∀ r ∈ db'.inventory, r.id = iid → r.status = .sold := by
  cases hfind : db.inventory.find? (fun r =>
      r.id == iid && r.deleted_at.isNone) with
  | none =>
    exfalso
    have hnone := List.find?_eq_none.mp hfind item hitem
    simp [hid, hdel] at hnone
  | some r =>
    have hpr := List.find?_some hfind
    simp only [Bool.and_eq_true, beq_iff_eq, Option.isNone_iff_eq_none] at hpr
    have hrmem := List.mem_of_find?_eq_some hfind
    have hre : r = item :=
      List.inj_on_of_nodup_map hids hrmem hitem (by rw [hpr.1, hid])
    subst hre
    have hst : (r.status == InvStatus.available) = true := by simp [hav]
    have hany : db.memberships.any (fun m =>
        m.user_id == uid && m.organization_id == r.organization_id) = true := by
      rcases hmem with ⟨m, hm, h1, h2⟩
      exact List.any_eq_true.mpr ⟨m, hm, by simp [h1, h2]⟩
    set db1 := updateInventoryById (some uid) iid
      (fun x => { x with status := .sold, updated_by := some uid }) db with hdb1
    refine ⟨⟨db1.next_id, r.organization_id, iid, price, some uid, none, none⟩,
      insertTransactionRow
        ⟨db1.next_id, r.organization_id, iid, price, some uid, none, none⟩
        { db1 with next_id := db1.next_id + 1 }, ?_, rfl, rfl, ?_, ?_⟩
    · show mark_card_sold uid iid price none none db = _
      simp [mark_card_sold, hfind, hst, hany, hdb1]
    · simp [insertTransactionRow]
    · intro x hx hxid
      have hx2 : x ∈ db1.inventory := by
        simpa [insertTransactionRow] using hx
      rw [hdb1] at hx2
      simp only [updateInventoryById, List.mem_map] at hx2
      rcases hx2 with ⟨r0, hr0, hxeq⟩
      by_cases h0 : r0.id = iid
      · have hb : (r0.id == iid) = true := by simp [h0]
        rw [← hxeq]
        simp [hb]
      · have hb : (r0.id == iid) = false := by simp [h0]
        rw [hb] at hxeq
        simp at hxeq
        rw [← hxeq] at hxid
        exact absurd hxid h0

end CardStock

namespace CardStock

/-- C4: accept_invite succeeds at most once per token: a successful call
marks the invite accepted, so every later call with the same token finds
accepted_at set and fails with the already-used error of Conflict kind,
creating no membership and, the transaction aborting, changing no state. -/
theorem C4_accept_invite_single_use (uid uid2 : Nat) (tok : String)
    (now now2 : Nat) (db : DB) (m : Membership) (db' : DB)
    (hok : accept_invite uid tok now db = .ok (m, db')) :
    accept_invite uid2 tok now2 db' = .error .inviteAlreadyUsed ∧
    kindOf .inviteAlreadyUsed = .conflict := by
  refine ⟨?_, rfl⟩
  unfold accept_invite at hok
  cases hfind : db.invites.find? (fun i => i.token == tok) with
  | none =>
    rw [hfind] at hok
    exact absurd hok (by simp)
  | some inv =>
    rw [hfind] at hok
    dsimp only at hok
    split_ifs at hok with h1 h2 h3 h4 h5
    cases hins : insertMembershipRow (some uid)
        { id := db.next_id, user_id := uid,
          organization_id := inv.organization_id, role := inv.role,
          invited_by := inv.invited_by, invited_at := some inv.created_at,
          accepted_at := some now }
        { db with next_id := db.next_id + 1 } with
    | error e =>
      rw [hins] at hok
      exact absurd hok (by simp)
    | ok db1 =>
      rw [hins] at hok
      simp only [Except.ok.injEq, Prod.mk.injEq] at hok
      have hdb' : db' = updateInviteById inv.id
          (fun j => { j with accepted_at := some now }) db1 := hok.2.symm
      have hinv1 : db1.invites = db.invites := by
        unfold insertMembershipRow at hins
        split at hins
        · exact absurd hins (by simp)
        · injection hins with h
          rw [← h]
      have hfind2 : db'.invites.find? (fun i => i.token == tok) =
          some { inv with accepted_at := some now } := by
        rw [hdb']
        show ((updateInviteById inv.id
          (fun j => { j with accepted_at := some now }) db1).invites.find?
            (fun i => i.token == tok)) = _
        rw [updateInviteById]
        show (db1.invites.map (fun j =>
          if j.id == inv.id then { j with accepted_at := some now } else j)).find?
            (fun i => i.token == tok) = _
        rw [find?_map_pred (fun j =>
            if j.id == inv.id then { j with accepted_at := some now } else j)
          (fun i => i.token == tok) ?hp db1.invites, hinv1, hfind]
        · simp
        case hp =>
          intro a
          by_cases hja : a.id = inv.id
          · simp [hja]
          · simp [hja]
      have hrev : inv.revoked_at.isSome = false := by
        simpa using h1
      unfold accept_invite
      rw [hfind2]
      simp [hrev]

end CardStock

namespace CardStock

/-- C5: accept_invite validates, in the order of the source and before any
write, that the token exists, the invite is not revoked, not already
accepted, not expired, the target organization is not soft-deleted, and the
caller's registered email equals the invite email case-insensitively; each
failed check aborts with its own error (the email check with
PermissionDenied kind) and, the transaction rolling back, no state change;
when every check passes (and the caller is not already a member, which
would trip the uniqueness constraint) it inserts a membership carrying the
invite's role and marks the invite accepted. -/
theorem C5_accept_invite_validation_order (uid : Nat) (tok : String)
    (now : Nat) (db : DB) :
    (db.invites.find? (fun i => i.token == tok) = none →
      accept_invite uid tok now db = .error .invalidInviteToken) ∧
    (∀ inv, db.invites.find? (fun i => i.token == tok) = some inv →
      (inv.revoked_at.isSome = true →
        accept_invite uid tok now db = .error .inviteRevoked) ∧
      (inv.revoked_at = none → inv.accepted_at.isSome = true →
        accept_invite uid tok now db = .error .inviteAlreadyUsed) ∧
      (inv.revoked_at = none → inv.accepted_at = none →
        inv.expires_at < now →
        accept_invite uid tok now db = .error .inviteExpired) ∧
      (inv.revoked_at = none → inv.accepted_at = none →
        ¬ inv.expires_at < now →
        (∃ o ∈ db.organizations, o.id = inv.organization_id ∧
          o.deleted_at.isSome = true) →
        accept_invite uid tok now db = .error .orgDeleted) ∧
      (∀ u, inv.revoked_at = none → inv.accepted_at = none →
        ¬ inv.expires_at < now →
        (∀ o ∈ db.organizations, o.id = inv.organization_id →
          o.deleted_at = none) →
        db.users.find? (fun x => x.id == uid) = some u →
        lower_eq u.email inv.email = false →
        accept_invite uid tok now db = .error .emailMismatch ∧
        kindOf .emailMismatch = .permissionDenied) ∧
      (inv.revoked_at = none → inv.accepted_at = none →
        ¬ inv.expires_at < now →
        (∀ o ∈ db.organizations, o.id = inv.organization_id →
          o.deleted_at = none) →
        (∀ u, db.users.find? (fun x => x.id == uid) = some u →
          lower_eq u.email inv.email = true) →
        (∀ x ∈ db.memberships, ¬(x.user_id = uid ∧
          x.organization_id = inv.organization_id)) →
        ∃ m db', accept_invite uid tok now db = .ok (m, db') ∧
          m.user_id = uid ∧ m.organization_id = inv.organization_id ∧
          m.role = inv.role ∧ m ∈ db'.memberships ∧
          db'.invites.find? (fun i => i.token == tok) =
            some { inv with accepted_at := some now })) := by
  constructor
  · intro h
    simp [accept_invite, h]
  · intro inv hfind
    refine ⟨?_, ?_, ?_, ?_, ?_, ?_⟩
    · intro h1
      simp [accept_invite, hfind, h1]
    · intro h1 h2
      have hr : inv.revoked_at.isSome = false := by simp [h1]
      simp [accept_invite, hfind, hr, h2]
    · intro h1 h2 h3
      have hr : inv.revoked_at.isSome = false := by simp [h1]
      have ha : inv.accepted_at.isSome = false := by simp [h2]
      simp [accept_invite, hfind, hr, ha, h3]
    · intro h1 h2 h3 h4
      have hr : inv.revoked_at.isSome = false := by simp [h1]
      have ha : inv.accepted_at.isSome = false := by simp [h2]
      have ho : (db.organizations.any (fun o =>
          o.id == inv.organization_id && o.deleted_at.isSome)) = true := by
        rcases h4 with ⟨o, hoi, he, hd⟩
        exact List.any_eq_true.mpr ⟨o, hoi, by simp [he, hd]⟩
      simp [accept_invite, hfind, hr, ha, h3, ho]
    · intro u h1 h2 h3 h4 hu hne
      have hr : inv.revoked_at.isSome = false := by simp [h1]
      have ha : inv.accepted_at.isSome = false := by simp [h2]
      have ho : (db.organizations.any (fun o =>
          o.id == inv.organization_id && o.deleted_at.isSome)) = false := by
        rw [List.any_eq_false]
        intro o hoi
        simp only [Bool.and_eq_true, beq_iff_eq, not_and]
        intro he
        simp [h4 o hoi he]
      refine ⟨?_, rfl⟩
      simp [accept_invite, hfind, hr, ha, h3, ho, hu, hne]
    · intro h1 h2 h3 h4 h5 h6
      have hr : inv.revoked_at.isSome = false := by simp [h1]
      have ha : inv.accepted_at.isSome = false := by simp [h2]
      have ho : (db.organizations.any (fun o =>
          o.id == inv.organization_id && o.deleted_at.isSome)) = false := by
        rw [List.any_eq_false]
        intro o hoi
        simp only [Bool.and_eq_true, beq_iff_eq, not_and]
        intro he
        simp [h4 o hoi he]
      have hmail : (match db.users.find? (fun x => x.id == uid) with
          | some u => !(lower_eq u.email inv.email)
          | none => false) = false := by
        cases hu : db.users.find? (fun x => x.id == uid) with
        | none => rfl
        | some u => simp [h5 u hu]
      have hdup : (db.memberships.any (fun x =>
          x.user_id == uid && x.organization_id == inv.organization_id)) =
            false := by
        rw [List.any_eq_false]
        intro x hx
        simp only [Bool.and_eq_true, beq_iff_eq]
        exact fun hc => h6 x hx hc
      refine ⟨⟨db.next_id, uid, inv.organization_id, inv.role, inv.invited_by,
          some inv.created_at, some now⟩,
        updateInviteById inv.id (fun j => { j with accepted_at := some now })
          { db with
              next_id := db.next_id + 1,
              memberships := db.memberships ++
                [⟨db.next_id, uid, inv.organization_id, inv.role,
                  inv.invited_by, some inv.created_at, some now⟩],
              audit_log := membershipAuditEntries (some uid) .insertOp
                  [(none, some ⟨db.next_id, uid, inv.organization_id, inv.role,
                    inv.invited_by, some inv.created_at, some now⟩)] ++
                db.audit_log },
        ?_, rfl, rfl, rfl, ?_, ?_⟩
      · simp [accept_invite, hfind, hr, ha, h3, ho, hmail,
          insertMembershipRow, hdup]
      · simp [updateInviteById]
      · rw [updateInviteById]
        show (List.map (fun j =>
          if j.id == inv.id then { j with accepted_at := some now } else j)
            db.invites).find? (fun i => i.token == tok) = _
        rw [find?_map_pred (fun j =>
            if j.id == inv.id then { j with accepted_at := some now } else j)
          (fun i => i.token == tok) ?hp db.invites, hfind]
        · simp
        case hp =>
          intro a
          by_cases hja : a.id = inv.id
          · simp [hja]
          · simp [hja]

end CardStock

namespace CardStock

/-- C9 (amended): at most one invite per (organization, email) pair is
simultaneously unaccepted and unrevoked — the predicate of the partial
unique index, which ignores expiry — and this invariant is preserved by
invite creation; creating a new invite while any unaccepted, unrevoked
invite for the pair exists fails, even when the existing invite is expired
by time, so an expired invite cannot be superseded without revoking it. -/
theorem C9_pending_invite_uniqueness (db : DB) (inv : Invite)
    (hpu : pendingUnique db) :
    (∀ db', insertInviteRow inv db = .ok db' → pendingUnique db') ∧
    (invite_index_pending inv = true →
      (∃ j ∈ db.invites, invite_index_pending j = true ∧
        j.organization_id = inv.organization_id ∧ j.email = inv.email) →
      (insertInviteRow inv db).isOk = false) := by
  constructor
  · intro db' h
    unfold insertInviteRow at h
    split_ifs at h with hc1 hc2
    injection h with h2
    subst h2
    show (db.invites ++ [inv]).Pairwise _
    refine List.pairwise_append.mpr ⟨hpu, by simp, ?_⟩
    intro a ha b hb
    simp only [List.mem_singleton] at hb
    subst hb
    intro hpa hpb
    by_contra hcon
    push_neg at hcon
    apply hc2
    simp only [Bool.and_eq_true]
    refine ⟨hpb, List.any_eq_true.mpr ⟨a, ha, ?_⟩⟩
    simp [hpa, hcon.1, hcon.2]
  · intro hp hex
    unfold insertInviteRow
    cases htok : db.invites.any (fun j => j.token == inv.token) with
    | true => simp [htok, Except.isOk, Except.toBool]
    | false =>
      have hany : (db.invites.any (fun j => invite_index_pending j &&
          j.organization_id == inv.organization_id &&
          j.email == inv.email)) = true := by
        rcases hex with ⟨j, hj, hj1, hj2, hj3⟩
        exact List.any_eq_true.mpr ⟨j, hj, by simp [hj1, hj2, hj3]⟩
      simp [htok, hp, hany, Except.isOk, Except.toBool]

end CardStock

namespace CardStock

/-- C8 (amended): for every principal and every row belonging to a
soft-deleted organization, the policy predicates built on get_user_org_ids
or on an explicit deleted_at conjunct evaluate to false — organizations
select/update/insert, memberships select/insert/delete, inventory
select/insert/update, transactions select/insert — whereas the predicates
built only on membership existence (memberships update, inventory delete,
invites, audit_log view, inventory_images) do not inspect the deletion
marker and can still evaluate to true. -/
theorem C8_soft_delete_policy_scope (uid : Nat) (db : DB) (o : Organization)
    (t0 : Nat) (horgs : (db.organizations.map Organization.id).Nodup)
    (ho : o ∈ db.organizations) (hdel : o.deleted_at = some t0) :
    organizations_select_policy uid o db = false ∧
    organizations_update_policy uid o db = false ∧
    organizations_insert_policy uid o db = false ∧
    (∀ m : Membership, m.organization_id = o.id →
      memberships_select_policy uid m db = false ∧
      memberships_insert_policy uid m db = false ∧
      memberships_delete_policy uid m db = false) ∧
    (∀ r : InventoryItem, r.organization_id = o.id →
      inventory_select_policy uid r db = false ∧
      inventory_insert_policy uid r db = false ∧
      inventory_update_policy uid r db = false) ∧
    (∀ t : Transaction, t.organization_id = o.id →
      transactions_select_policy uid t db = false ∧
      transactions_insert_policy uid t db = false) := by
  have hkey : o.id ∉ get_user_org_ids uid db := by
    intro hmem
    simp only [get_user_org_ids, List.mem_map, List.mem_filter] at hmem
    rcases hmem with ⟨m, ⟨hmm, hcond⟩, hmo⟩
    simp only [Bool.and_eq_true, beq_iff_eq] at hcond
    rcases hcond with ⟨-, hany⟩
    rw [List.any_eq_true] at hany
    rcases hany with ⟨o2, ho2, hcond2⟩
    simp only [Bool.and_eq_true, beq_iff_eq,
      Option.isNone_iff_eq_none] at hcond2
    have ho2o : o2 = o :=
      List.inj_on_of_nodup_map horgs ho2 ho (by rw [hcond2.1, hmo])
    rw [ho2o, hdel] at hcond2
    exact absurd hcond2.2 (by simp)
  refine ⟨?_, ?_, rfl, ?_, ?_, ?_⟩
  · simp [organizations_select_policy, hdel]
  · simp [organizations_update_policy, hdel]
  · intro m hm
    exact ⟨by simp [memberships_select_policy, hm, hkey], rfl, rfl⟩
  · intro r hr
    refine ⟨?_, ?_, ?_⟩
    · simp [inventory_select_policy, hr, hkey]
    · simp [inventory_insert_policy, hr, hkey]
    · simp [inventory_update_policy, hr, hkey]
  · intro t ht
    exact ⟨by simp [transactions_select_policy, ht, hkey], rfl⟩

end CardStock

namespace CardStock

/-- Inserting a transaction leaves inventory unchanged. -/
theorem inventory_insertTransactionRow (t : Transaction) (db0 : DB) :
    (insertTransactionRow t db0).inventory = db0.inventory := rfl

/-- Changing only the freshness counter leaves inventory unchanged. -/
theorem inventory_set_next (db0 : DB) (n : Nat) :
    ({ db0 with next_id := n } : DB).inventory = db0.inventory := rfl

/-- The inventory after an update by id. -/
theorem inventory_updateInventoryById (uid : Option Nat) (iid : Nat)
    (f : InventoryItem → InventoryItem) (db0 : DB) :
    (updateInventoryById uid iid f db0).inventory =
      db0.inventory.map (fun r => if r.id == iid then f r else r) := rfl

/-- Inserting a transaction raises the reference count of exactly its
item. -/
theorem txCount_insertTransactionRow (t : Transaction) (db0 : DB) (v : Nat) :
    txCount (insertTransactionRow t db0) v =
      txCount db0 v + (if t.inventory_id == v then 1 else 0) := by
  simp only [txCount, insertTransactionRow, List.filter_append,
    List.length_append]
  cases h : (t.inventory_id == v) <;> simp [h]

/-- Updating inventory rows leaves transaction counts unchanged. -/
theorem txCount_updateInventoryById (uid : Option Nat) (iid : Nat)
    (f : InventoryItem → InventoryItem) (db0 : DB) (v : Nat) :
    txCount (updateInventoryById uid iid f db0) v = txCount db0 v := rfl

/-- Changing only the freshness counter leaves transaction counts
unchanged. -/
theorem txCount_set_next (db0 : DB) (n v : Nat) :
    txCount ({ db0 with next_id := n } : DB) v = txCount db0 v := rfl

/-- C1 (amended): mark_card_sold preserves the exactly-once sale invariant:
from a state where every item has at most one referencing transaction,
exactly one precisely when sold, a successful call yields such a state
again (it sells an available item, which had zero references, and inserts
its single transaction). The invariant is not preserved by the direct
inventory writes the Members update policy admits, which can rewrite
status without touching transactions. -/
theorem C1_mark_card_sold_preserves_sale_invariant (uid iid : Nat)
    (price : Int) (be bn : Option String) (db : DB) (tx : Transaction)
    (db' : DB) (hids : (db.inventory.map InventoryItem.id).Nodup)
    (hinv : txInvariant db)
    (hok : mark_card_sold uid iid price be bn db = .ok (tx, db')) :
    txInvariant db' := by
  unfold mark_card_sold at hok
  cases hfind : db.inventory.find? (fun r =>
      r.id == iid && r.deleted_at.isNone) with
  | none =>
    rw [hfind] at hok
    exact absurd hok (by simp)
  | some item =>
    rw [hfind] at hok
    dsimp only at hok
    split_ifs at hok with h1 h2
    simp only [Except.ok.injEq, Prod.mk.injEq] at hok
    obtain ⟨htx, hdb'⟩ := hok
    subst htx
    subst hdb'
    have hp := List.find?_some hfind
    simp only [Bool.and_eq_true, beq_iff_eq, Option.isNone_iff_eq_none] at hp
    have hmemi := List.mem_of_find?_eq_some hfind
    have hav : item.status = .available := by simpa using h1
    obtain ⟨hle, hiff⟩ := hinv item hmemi
    have hns : ¬ txCount db item.id = 1 := by
      intro hh
      have hsold := hiff.mp hh
      rw [hav] at hsold
      exact absurd hsold (by decide)
    have hcnt0 : txCount db item.id = 0 := by omega
    intro x hx
    rw [inventory_insertTransactionRow, inventory_set_next,
      inventory_updateInventoryById, List.mem_map] at hx
    rcases hx with ⟨r0, hr0, hxeq⟩
    rw [txCount_insertTransactionRow, txCount_set_next,
      txCount_updateInventoryById]
    by_cases h0 : r0.id = iid
    · have hb : (r0.id == iid) = true := by simp [h0]
      rw [hb] at hxeq
      simp only [if_true] at hxeq
      have hr0item : r0 = item :=
        List.inj_on_of_nodup_map hids hr0 hmemi (by rw [h0, hp.1])
      subst hr0item
      have hxid : x.id = r0.id := by rw [← hxeq]
      have hxst : x.status = .sold := by rw [← hxeq]
      rw [hxid, h0]
      have hcnt0x : txCount db iid = 0 := h0 ▸ hcnt0
      simp [hcnt0x, hxst]
    · have hb : (r0.id == iid) = false := by simp [h0]
      rw [hb] at hxeq
      simp at hxeq
      subst hxeq
      have hiv : (iid == r0.id) = false := by
        simp only [beq_eq_false_iff_ne, ne_eq]
        exact fun hc => h0 hc.symm
      rw [hiv]
      simpa using hinv r0 hr0

end CardStock

namespace CardStock

/-- Composing two filters into a conjunction filter. -/
theorem filter_filter_bool {α : Type} (p q : α → Bool) :
    ∀ l : List α, (l.filter p).filter q = l.filter (fun a => p a && q a) := by
  intro l
  induction l with
  | nil => rfl
  | cons a t ih =>
    cases hp : p a <;> cases hq : q a <;>
      simp [List.filter_cons, hp, hq, ih]

/-- C2 (amended): the at-least-one-owner invariant is preserved by the
privileged procedures: leave_organization refuses to delete the last owner
membership and deletes only the caller's own row, and create_organization
only ever adds an organization together with its owner membership. It is
not preserved by the direct role updates the Owners update roles policy
admits, which can demote a sole owner. -/
theorem C2_owner_invariant_preserved_by_procedures (db : DB)
    (hids : (db.memberships.map Membership.id).Nodup) :
    (∀ uid oid db', leave_organization uid oid db = .ok db' →
      orgHasOwner db → orgHasOwner db') ∧
    (∀ uid nm slug now org db',
      create_organization uid nm slug now db = .ok (org, db') →
      orgHasOwner db → orgHasOwner db') := by
  constructor
  · intro uid oid db' hok hinv
    unfold leave_organization at hok
    cases hfind : db.memberships.find? (fun m =>
        m.user_id == uid && m.organization_id == oid) with
    | none =>
      rw [hfind] at hok
      exact absurd hok (by simp)
    | some my =>
      rw [hfind] at hok
      dsimp only at hok
      have hp := List.find?_some hfind
      simp only [Bool.and_eq_true, beq_iff_eq] at hp
      have hmy := List.mem_of_find?_eq_some hfind
      have main : (my.role ≠ Role.owner ∨ 2 ≤ ownerCount db oid) →
          orgHasOwner (deleteMembershipById (some uid) my.id db) := by
        intro hcase o hoin
        have hoin2 : o ∈ db.organizations := hoin
        have hcnt' : ownerCount (deleteMembershipById (some uid) my.id db)
            o.id = (db.memberships.filter (fun m =>
              (m.organization_id == o.id && m.role == Role.owner) &&
              !(m.id == my.id))).length := by
          show ((db.memberships.filter (fun m => !(m.id == my.id))).filter
            (fun m => m.organization_id == o.id &&
              m.role == Role.owner)).length = _
          rw [filter_filter_bool]
          congr 1
          refine List.filter_congr ?_
          intro a _
          exact Bool.and_comm _ _
        rw [hcnt']
        by_cases hPmy : (my.organization_id == o.id &&
            my.role == Role.owner) = true
        · simp only [Bool.and_eq_true, beq_iff_eq] at hPmy
          have hoid : o.id = oid := by rw [← hPmy.1, hp.2]
          have h2 : 2 ≤ ownerCount db oid := by
            rcases hcase with hne | h2
            · exact absurd hPmy.2 hne
            · exact h2
          have hsplit := length_filter_split
            (fun m => m.organization_id == o.id && m.role == Role.owner)
            (fun m => m.id == my.id) db.memberships
          have hle1 : (db.memberships.filter (fun m =>
              (m.organization_id == o.id && m.role == Role.owner) &&
              (m.id == my.id))).length ≤ 1 :=
            le_trans (length_filter_and_le_right _ _ _)
              (filter_key_length_le_one Membership.id db.memberships hids
                my.id)
          have h2' : 2 ≤ (db.memberships.filter (fun m =>
              m.organization_id == o.id &&
              m.role == Role.owner)).length := by
            have hco : ownerCount db o.id = (db.memberships.filter (fun m =>
                m.organization_id == o.id &&
                m.role == Role.owner)).length := rfl
            rw [← hco, hoid]
            exact h2
          omega
        · have hA : ∀ a ∈ db.memberships,
              (a.organization_id == o.id && a.role == Role.owner) = true →
              (a.id == my.id) = false := by
            intro a ha hPa
            cases hq : (a.id == my.id) with
            | false => rfl
            | true =>
              exfalso
              have haid : a.id = my.id := by simpa using hq
              have haeq : a = my :=
                List.inj_on_of_nodup_map hids ha hmy haid
              rw [haeq] at hPa
              exact hPmy hPa
          rw [filter_and_not_eq _ _ _ hA]
          exact hinv o hoin2
      split_ifs at hok with hro hcnt
      · injection hok with h
        subst h
        refine main (Or.inr ?_)
        have hc2 : ¬ (db.memberships.filter (fun m =>
            m.organization_id == oid && m.role == Role.owner)).length ≤ 1 :=
          hcnt
        have hco : ownerCount db oid = (db.memberships.filter (fun m =>
            m.organization_id == oid && m.role == Role.owner)).length := rfl
        omega
      · injection hok with h
        subst h
        refine main (Or.inl ?_)
        intro hc
        exact hro (by simp [hc])
  · intro uid nm slug now org db' hok hinv
    unfold create_organization at hok
    split_ifs at hok with hc1
    cases hins : insertOrganizationRow (some uid) nm slug db with
    | error e =>
      rw [hins] at hok
      exact absurd hok (by simp)
    | ok p =>
      obtain ⟨org0, db1⟩ := p
      rw [hins] at hok
      dsimp only at hok
      cases hins2 : insertMembershipRow (some uid)
          { id := db1.next_id, user_id := uid, organization_id := org0.id,
            role := .owner, invited_by := none, invited_at := none,
            accepted_at := some now }
          { db1 with next_id := db1.next_id + 1 } with
      | error e =>
        rw [hins2] at hok
        exact absurd hok (by simp)
      | ok db2 =>
        rw [hins2] at hok
        simp only [Except.ok.injEq, Prod.mk.injEq] at hok
        obtain ⟨horg, hdb'⟩ := hok
        subst hdb'
        unfold insertOrganizationRow at hins
        split_ifs at hins with d1 d2 d3
        simp only [Except.ok.injEq, Prod.mk.injEq] at hins
        obtain ⟨horg0, hdb1⟩ := hins
        unfold insertMembershipRow at hins2
        split at hins2
        · exact absurd hins2 (by simp)
        · injection hins2 with hdb2
          intro o hoin
          have horgs2 : db2.organizations = db.organizations ++ [org0] := by
            rw [← hdb2, ← hdb1]
            simp [← horg0]
          have hms2 : db2.memberships = db.memberships ++
              [(⟨db1.next_id, uid, org0.id, Role.owner, none, none,
                some now⟩ : Membership)] := by
            rw [← hdb2, ← hdb1]
          have hcnt : ∀ v, ownerCount db2 v = ownerCount db v +
              (List.filter (fun m => m.organization_id == v &&
                m.role == Role.owner)
                [(⟨db1.next_id, uid, org0.id, Role.owner, none, none,
                  some now⟩ : Membership)]).length := by
            intro v
            show (db2.memberships.filter _).length = _
            rw [hms2, List.filter_append, List.length_append]
            rfl
          rw [horgs2] at hoin
          rcases List.mem_append.mp hoin with hold | hnew
          · have h1 := hinv o hold
            have h2 := hcnt o.id
            omega
          · simp only [List.mem_singleton] at hnew
            subst hnew
            have h2 := hcnt o.id
            have hself : (List.filter (fun m => m.organization_id == o.id &&
                m.role == Role.owner)
                [(⟨db1.next_id, uid, o.id, Role.owner, none, none,
                  some now⟩ : Membership)]).length = 1 := by
              simp [List.filter_cons]
            omega

end CardStock

namespace CardStock

/-- C3 (amended): every mutation the attached audit triggers cover writes
exactly one audit entry in the same transaction — insert, update and
delete of inventory and memberships rows, and insert and update of
organizations rows — carrying the mutation's record id, its operation
kind, the pre-image for update/delete, the post-image for insert/update,
and the acting principal. Deletes of organizations rows are not covered:
trg_organizations_audit is attached to INSERT OR UPDATE only, so an
organizations delete writes no entry. -/
theorem C3_audit_per_mutation (uid : Option Nat) (db : DB) :
    (∀ r : InventoryItem, (insertInventoryRow uid r db).audit_log =
      { organization_id := r.organization_id,
        table_name := TableName.inventory, record_id := r.id,
        action := TgOp.insertOp, old_data := none,
        new_data := some (RowData.inventoryRow r),
        changed_by := uid } :: db.audit_log) ∧
    ((db.inventory.map InventoryItem.id).Nodup → ∀ r ∈ db.inventory,
      ∀ f : InventoryItem → InventoryItem,
      (updateInventoryById uid r.id f db).audit_log =
      { organization_id := (f r).organization_id,
        table_name := TableName.inventory, record_id := (f r).id,
        action := TgOp.updateOp, old_data := some (RowData.inventoryRow r),
        new_data := some (RowData.inventoryRow (f r)),
        changed_by := uid } :: db.audit_log) ∧
    ((db.inventory.map InventoryItem.id).Nodup → ∀ r ∈ db.inventory,
      (deleteInventoryById uid r.id db).audit_log =
      { organization_id := r.organization_id,
        table_name := TableName.inventory, record_id := r.id,
        action := TgOp.deleteOp, old_data := some (RowData.inventoryRow r),
        new_data := none, changed_by := uid } :: db.audit_log) ∧
    (∀ m : Membership, ∀ db', insertMembershipRow uid m db = .ok db' →
      db'.audit_log =
      { organization_id := m.organization_id,
        table_name := TableName.memberships, record_id := m.id,
        action := TgOp.insertOp, old_data := none,
        new_data := some (RowData.membershipRow m),
        changed_by := uid } :: db.audit_log) ∧
    ((db.memberships.map Membership.id).Nodup → ∀ m ∈ db.memberships,
      ∀ f : Membership → Membership,
      (updateMembershipById uid m.id f db).audit_log =
      { organization_id := (f m).organization_id,
        table_name := TableName.memberships, record_id := (f m).id,
        action := TgOp.updateOp, old_data := some (RowData.membershipRow m),
        new_data := some (RowData.membershipRow (f m)),
        changed_by := uid } :: db.audit_log) ∧
    ((db.memberships.map Membership.id).Nodup → ∀ m ∈ db.memberships,
      (deleteMembershipById uid m.id db).audit_log =
      { organization_id := m.organization_id,
        table_name := TableName.memberships, record_id := m.id,
        action := TgOp.deleteOp, old_data := some (RowData.membershipRow m),
        new_data := none, changed_by := uid } :: db.audit_log) ∧
    (∀ nm slug org db', insertOrganizationRow uid nm slug db = .ok (org, db') →
      db'.audit_log =
      { organization_id := org.id, table_name := TableName.organizations,
        record_id := org.id, action := TgOp.insertOp, old_data := none,
        new_data := some (RowData.organizationRow org),
        changed_by := uid } :: db.audit_log) ∧
    ((db.organizations.map Organization.id).Nodup → ∀ o ∈ db.organizations,
      ∀ f : Organization → Organization,
      (updateOrganizationById uid o.id f db).audit_log =
      { organization_id := (f o).id, table_name := TableName.organizations,
        record_id := (f o).id, action := TgOp.updateOp,
        old_data := some (RowData.organizationRow o),
        new_data := some (RowData.organizationRow (f o)),
        changed_by := uid } :: db.audit_log) := by
  refine ⟨?_, ?_, ?_, ?_, ?_, ?_, ?_, ?_⟩
  · intro r
    rfl
  · intro hids r hr f
    have haff := filter_key_eq_singleton InventoryItem.id db.inventory hids r hr
    show inventoryAuditEntries uid .updateOp
      ((db.inventory.filter (fun x => x.id == r.id)).map
        (fun x => (some x, some (f x)))) ++ db.audit_log = _
    rw [haff]
    rfl
  · intro hids r hr
    have haff := filter_key_eq_singleton InventoryItem.id db.inventory hids r hr
    show inventoryAuditEntries uid .deleteOp
      ((db.inventory.filter (fun x => x.id == r.id)).map
        (fun x => (some x, none))) ++ db.audit_log = _
    rw [haff]
    rfl
  · intro m db' h
    unfold insertMembershipRow at h
    split at h
    · exact absurd h (by simp)
    · injection h with h2
      rw [← h2]
      rfl
  · intro hids m hm f
    have haff := filter_key_eq_singleton Membership.id db.memberships hids m hm
    show membershipAuditEntries uid .updateOp
      ((db.memberships.filter (fun x => x.id == m.id)).map
        (fun x => (some x, some (f x)))) ++ db.audit_log = _
    rw [haff]
    rfl
  · intro hids m hm
    have haff := filter_key_eq_singleton Membership.id db.memberships hids m hm
    show membershipAuditEntries uid .deleteOp
      ((db.memberships.filter (fun x => x.id == m.id)).map
        (fun x => (some x, none))) ++ db.audit_log = _
    rw [haff]
    rfl
  · intro nm slug org db' h
    unfold insertOrganizationRow at h
    split_ifs at h with d1 d2 d3
    simp only [Except.ok.injEq, Prod.mk.injEq] at h
    obtain ⟨horg, hdb'⟩ := h
    rw [← hdb', ← horg]
    rfl
  · intro hids o ho f
    have haff := filter_key_eq_singleton Organization.id db.organizations hids o ho
    show organizationAuditEntries uid .updateOp
      ((db.organizations.filter (fun x => x.id == o.id)).map
        (fun x => (some x, some (f x)))) ++ db.audit_log = _
    rw [haff]
    rfl

end CardStock

namespace CardStock

/-- Witness for C1 (amended): in the concrete one-card store the sale
invariant holds after selling the card through mark_card_sold. -/
theorem C1_sale_invariant_witness : txInvariant c1w_after :=
  C1_mark_card_sold_preserves_sale_invariant 1 12 100 none none c1w_db
    ⟨13, 10, 12, 100, some 1, none, none⟩ c1w_after (by decide) (by decide)
    (by decide)

/-- Witness for C2 (amended): the two-owner organization keeps an owner
after one owner leaves, and every organization keeps an owner after a
fresh organization is created. -/
theorem C2_owner_invariant_witness :
    orgHasOwner c2w_after ∧ orgHasOwner c2w_created :=
  ⟨(C2_owner_invariant_preserved_by_procedures c7_db (by decide)).1
      2 70 c2w_after (by decide) (by decide),
    (C2_owner_invariant_preserved_by_procedures c7_db (by decide)).2
      3 "New Shop" "new-shop" 9 ⟨80, "New Shop", "new-shop", none⟩
      c2w_created (by decide) (by decide)⟩

/-- Witness for C3 (amended): concrete audit entries produced by one
mutation of each covered kind in the one-row-per-table state. -/
theorem C3_audit_witness :
    (insertInventoryRow (some 9) c3w_newItem c3w_db).audit_log =
      [{ organization_id := 30, table_name := .inventory, record_id := 36,
         action := .insertOp, old_data := none,
         new_data := some (.inventoryRow c3w_newItem),
         changed_by := some 9 }] ∧
    (updateInventoryById (some 9) 33
        (fun x => { x with status := .reserved }) c3w_db).audit_log =
      [{ organization_id := 30, table_name := .inventory, record_id := 33,
         action := .updateOp, old_data := some (.inventoryRow c3w_item),
         new_data := some (.inventoryRow
           ⟨33, 30, "Mewtwo", .reserved, none, none⟩),
         changed_by := some 9 }] ∧
    (deleteInventoryById (some 9) 33 c3w_db).audit_log =
      [{ organization_id := 30, table_name := .inventory, record_id := 33,
         action := .deleteOp, old_data := some (.inventoryRow c3w_item),
         new_data := none, changed_by := some 9 }] ∧
    c3w_memIns.audit_log =
      [{ organization_id := 30, table_name := .memberships, record_id := 37,
         action := .insertOp, old_data := none,
         new_data := some (.membershipRow c3w_newMember),
         changed_by := some 9 }] ∧
    (updateMembershipById (some 9) 32
        (fun m => { m with role := .admin }) c3w_db).audit_log =
      [{ organization_id := 30, table_name := .memberships, record_id := 32,
         action := .updateOp, old_data := some (.membershipRow c3w_m),
         new_data := some (.membershipRow
           ⟨32, 1, 30, .admin, none, none, some 0⟩),
         changed_by := some 9 }] ∧
    (deleteMembershipById (some 9) 32 c3w_db).audit_log =
      [{ organization_id := 30, table_name := .memberships, record_id := 32,
         action := .deleteOp, old_data := some (.membershipRow c3w_m),
         new_data := none, changed_by := some 9 }] ∧
    c3w_orgIns.audit_log =
      [{ organization_id := 35, table_name := .organizations,
         record_id := 35, action := .insertOp, old_data := none,
         new_data := some (.organizationRow
           ⟨35, "New Store", "new-store", none⟩),
         changed_by := some 9 }] ∧
    (updateOrganizationById (some 9) 30
        (fun o => { o with deleted_at := some 77 }) c3w_db).audit_log =
      [{ organization_id := 30, table_name := .organizations,
         record_id := 30, action := .updateOp,
         old_data := some (.organizationRow c3_org),
         new_data := some (.organizationRow
           ⟨30, "Ghost Store", "ghost-store", some 77⟩),
         changed_by := some 9 }] :=
  ⟨(C3_audit_per_mutation (some 9) c3w_db).1 c3w_newItem,
    (C3_audit_per_mutation (some 9) c3w_db).2.1 (by decide) c3w_item
      (by decide) (fun x => { x with status := .reserved }),
    (C3_audit_per_mutation (some 9) c3w_db).2.2.1 (by decide) c3w_item
      (by decide),
    (C3_audit_per_mutation (some 9) c3w_db).2.2.2.1 c3w_newMember c3w_memIns
      (by decide),
    (C3_audit_per_mutation (some 9) c3w_db).2.2.2.2.1 (by decide) c3w_m
      (by decide) (fun m => { m with role := .admin }),
    (C3_audit_per_mutation (some 9) c3w_db).2.2.2.2.2.1 (by decide) c3w_m
      (by decide),
    (C3_audit_per_mutation (some 9) c3w_db).2.2.2.2.2.2.1 "New Store"
      "new-store" ⟨35, "New Store", "new-store", none⟩ c3w_orgIns
      (by decide),
    (C3_audit_per_mutation (some 9) c3w_db).2.2.2.2.2.2.2 (by decide) c3_org
      (by decide) (fun o => { o with deleted_at := some 77 })⟩

/-- Witness for C4: in the concrete invite state, a second acceptance of
the already-used token fails with the Conflict-kind already-used error. -/
theorem C4_single_use_witness :
    accept_invite 3 "tok-abc" 99 c4_db1 = .error .inviteAlreadyUsed ∧
    kindOf .inviteAlreadyUsed = .conflict :=
  C4_accept_invite_single_use 2 3 "tok-abc" 10 99 c4_db
    ⟨50, 2, 41, .member, some 1, some 0, some 10⟩ c4_db1 (by decide)

/-- Witness for C5: in the concrete invite state, the wrong principal gets
the PermissionDenied-kind email error and the right principal gets a
membership carrying the invite role while the invite is marked
accepted. -/
theorem C5_validation_witness :
    (accept_invite 1 "tok-abc" 10 c4_db = .error .emailMismatch ∧
      kindOf .emailMismatch = .permissionDenied) ∧
    (∃ m db1, accept_invite 2 "tok-abc" 10 c4_db = .ok (m, db1) ∧
      m.user_id = 2 ∧ m.organization_id = c4_invite.organization_id ∧
      m.role = c4_invite.role ∧ m ∈ db1.memberships ∧
      db1.invites.find? (fun i => i.token == "tok-abc") =
        some { c4_invite with accepted_at := some 10 }) :=
  ⟨((C5_accept_invite_validation_order 1 "tok-abc" 10 c4_db).2 c4_invite
      (by decide)).2.2.2.2.1 ⟨1, "ann@x.com"⟩ rfl rfl (by decide)
      (by decide) (by decide) (by decide),
    ((C5_accept_invite_validation_order 2 "tok-abc" 10 c4_db).2 c4_invite
      (by decide)).2.2.2.2.2 rfl rfl (by decide) (by decide) (by decide)
      (by decide)⟩

/-- Witness for C6: a malformed slug and the reserved slug api are both
rejected with validation-kind errors, and a well-formed fresh slug yields
the organization with its owner membership. -/
theorem C6_create_organization_witness :
    (create_organization 1 "My Store" "bad_slug" 7 c6_db =
        .error .invalidSlugFormat ∧
      kindOf .invalidSlugFormat = .validationError) ∧
    (∃ e, create_organization 1 "My Store" "api" 7 c6_db = .error e ∧
      kindOf e = .validationError) ∧
    (∃ org db', create_organization 1 "My Store" "my-store" 7 c6_db =
        .ok (org, db') ∧
      org.slug = "my-store" ∧ org.name = "My Store" ∧
      org.deleted_at = none ∧ org ∈ db'.organizations ∧
      ∃ mem ∈ db'.memberships, mem.user_id = 1 ∧
        mem.organization_id = org.id ∧ mem.role = .owner) :=
  ⟨(C6_create_organization_spec 1 "My Store" "bad_slug" 7 c6_db).1
      (by decide),
    (C6_create_organization_spec 1 "My Store" "api" 7 c6_db).2.1
      (by decide),
    (C6_create_organization_spec 1 "My Store" "my-store" 7 c6_db).2.2
      (by decide) (by decide) (by decide) (by decide) (by decide)⟩

/-- Witness for C7: the sole owner of organization 75 cannot leave, the
second owner of organization 70 leaves deleting exactly their own row, and
a non-member cannot leave. -/
theorem C7_leave_organization_witness :
    (leave_organization 1 75 c7_solo = .error .soleOwner ∧
      kindOf .soleOwner = .invariantViolation) ∧
    (c7_m2.user_id = 2 ∧ c7_m2.organization_id = 70 ∧
      leave_organization 2 70 c7_db = .ok { c7_db with
        memberships := c7_db.memberships.filter (fun m => !(m.id == c7_m2.id)),
        audit_log := membershipAuditEntries (some 2) .deleteOp
          [(some c7_m2, none)] ++ c7_db.audit_log }) ∧
    leave_organization 9 70 c7_db = .error .notAMember :=
  ⟨((C7_leave_organization_spec 1 75 c7_solo (by decide)).2 c7_solo_m
      (by decide)).1 ⟨rfl, by decide⟩,
    ((C7_leave_organization_spec 2 70 c7_db (by decide)).2 c7_m2
      (by decide)).2 (Or.inr (by decide)),
    (C7_leave_organization_spec 9 70 c7_db (by decide)).1 (by decide)⟩

/-- Witness for C8 (amended): in the concrete soft-deleted-store state,
the deletion-aware policies deny even the organization's own owner. -/
theorem C8_policy_witness :
    organizations_select_policy 2 c8_org c8_db = false ∧
    organizations_update_policy 2 c8_org c8_db = false ∧
    memberships_select_policy 2 c8_member c8_db = false ∧
    inventory_select_policy 2 c8_item c8_db = false ∧
    inventory_update_policy 2 c8_item c8_db = false ∧
    transactions_select_policy 2 c8w_tx c8_db = false := by
  have h := C8_soft_delete_policy_scope 2 c8_db c8_org 60 (by decide)
    (by decide) rfl
  exact ⟨h.1, h.2.1, (h.2.2.2.1 c8_member rfl).1, (h.2.2.2.2.1 c8_item rfl).1,
    (h.2.2.2.2.1 c8_item rfl).2.2, (h.2.2.2.2.2 c8w_tx rfl).1⟩

/-- Witness for C9 (amended): inserting the fresh invite into an
invite-free state preserves the uniqueness invariant, and inserting it
next to the expired pending invite for the same pair fails. -/
theorem C9_pending_invite_witness :
    pendingUnique c9w_db1 ∧ (insertInviteRow c9_new c9_db).isOk = false :=
  ⟨(C9_pending_invite_uniqueness c9w_db c9_new (by decide)).1 c9w_db1
      (by decide),
    (C9_pending_invite_uniqueness c9_db c9_new (by decide)).2 (by decide)
      ⟨c9_old, by decide, by decide, rfl, rfl⟩⟩

/-- Witness for C10: in the concrete soft-deleted-store state, the member
still sells the available card. -/
theorem C10_mark_card_sold_witness :
    ∃ tx db', mark_card_sold 2 91 60 none none c10_db = .ok (tx, db') ∧
      tx.inventory_id = 91 ∧ tx.organization_id = c10_item.organization_id ∧
      tx ∈ db'.transactions ∧
      ∀ r ∈ db'.inventory, r.id = 91 → r.status = .sold :=
  C10_mark_card_sold_ignores_org_deletion 2 91 60 50 c10_db c10_item
    (by decide) (by decide) rfl rfl rfl (by decide) (by decide)

end CardStock
